import Mathlib

/-!
Verification of the Battle-Benchmarks TTS benchmarking tool.

This file gives a shallow embedding of the parts of the program relevant to
the verified properties:

* `src/config.py` — the `TTS_PROVIDERS` registry (`VoiceInfo`, `TTSConfig`),
  the gender/locale voice filters `get_voices_by_gender` and
  `get_voices_by_gender_and_locale`, and the API-key functions
  `get_api_key` / `validate_config`.
* `src/tts_providers.py` — the provider adapters' `generate_speech`
  functions (Murf, Deepgram, OpenAI, ElevenLabs Flash, Cartesia), the
  request validation shared by them, and `TTSProviderFactory`.
* `src/app.py` — the pairwise ELO update used by the session replay loops,
  the blind-test voice cycling, and the leaderboard construction of
  `leaderboard_page`.

Python dictionaries are modelled as association lists in insertion order;
`os.environ` is modelled as a function `String → Option String`; network
effects are modelled by an explicit `NetOutcome` oracle passed to each
adapter, so that an adapter is a total function — which is exactly the
"never throws to the caller" contract.  Floating-point arithmetic in the
ELO computation is modelled over the real numbers.
-/

/-- Voice metadata with gender information (`config.py`, dataclass `VoiceInfo`). -/
structure VoiceInfo where
  id : String
  name : String
  gender : String
  accent : String := "US"
deriving DecidableEq, Repr

/-- Configuration for TTS providers (`config.py`, dataclass `TTSConfig`).
`voice_info` is a Python dict keyed by voice id, modelled as an association
list in insertion order. -/
structure TTSConfig where
  name : String
  api_key_env : String
  base_url : String
  supported_voices : List String
  max_chars : Nat
  supports_streaming : Bool
  model_name : String := ""
  voice_info : List (String × VoiceInfo) := []
deriving DecidableEq, Repr

/-- Python `dict.get(key)` on an association list: the first binding of the key. -/
def lookupStr {α : Type} (l : List (String × α)) (k : String) : Option α :=
  (l.find? (fun p => p.1 == k)).map (fun p => p.2)

def murfFalconOct23Config : TTSConfig :=
  { name := "Murf",
    api_key_env := "MURF_API_KEY",
    base_url := "https://global.api.murf.ai/v1/speech/stream",
    supported_voices := [
      "pa-IN-harman", "en-US-alina", "en-UK-hazel", "en-US-cooper", "en-US-imani",
      "mr-IN-rujuta", "en-US-wayne", "kn-IN-rajesh", "en-US-daniel", "hr-HR-marija",
      "en-IN-samar", "bn-IN-anwesha", "hi-IN-khyati", "es-MX-alejandro", "en-AU-joyce",
      "en-US-zion", "en-IN-isha", "en-US-riley", "en-US-carter", "ta-IN-sarvesh",
      "en-UK-gabriel", "en-UK-juliet", "en-IN-arohi", "de-DE-josephine", "en-UK-hugo",
      "en-US-samantha", "de-DE-erna", "en-IN-nikhil", "en-IN-anisha", "zh-CN-baolin",
      "pt-BR-isadora", "en-US-terrell", "en-US-denzel", "en-UK-heidi", "en-US-miles",
      "en-US-abigail", "mr-IN-vaibhav", "en-AU-shane", "ta-IN-murali", "en-UK-peter",
      "it-IT-giulia", "nl-NL-famke", "en-AU-ivy", "nl-NL-dirk", "fr-FR-axel",
      "fr-FR-guillaume", "es-ES-carla", "en-US-claire", "ko-KR-jangmi", "ko-KR-sanghoon",
      "ja-JP-denki", "es-ES-elvira", "es-ES-enrique", "en-UK-aiden", "en-US-ronnie",
      "en-UK-amber", "en-AU-jimm", "en-UK-pearl", "pt-BR-benício", "en-UK-freddie",
      "en-US-ryan", "pt-BR-eloa", "hi-IN-karan", "en-US-charlotte", "hi-IN-namrita",
      "de-DE-lia", "en-US-natalie", "ta-IN-suresh", "en-US-michelle", "en-US-phoebe",
      "es-ES-carmen", "en-US-caleb", "en-US-iris", "en-UK-harrison", "en-US-marcus",
      "en-US-josie", "en-US-ariana", "en-US-daisy", "en-US-charles", "en-UK-reggie",
      "en-US-julia", "en-SCOTT-emily", "en-US-dylan", "es-MX-valeria", "en-IN-eashwar",
      "en-AU-evelyn", "hi-IN-sunaina", "de-DE-lara", "en-US-evander", "en-IN-tanushree",
      "en-SCOTT-rory", "pt-BR-yago", "ta-IN-iniya", "en-AU-leyton", "zh-CN-wei",
      "de-DE-matthias", "it-IT-angelo", "en-IN-rohan", "en-US-delilah", "en-US-paul",
      "en-US-lucas", "bn-IN-abhik", "en-US-angela", "en-US-naomi", "es-MX-carlos",
      "nl-NL-merel", "ja-JP-kenji", "en-US-alicia", "en-IN-alia", "zh-CN-jiao",
      "en-US-june", "en-AU-ashton", "en-UK-finley", "pl-PL-blazej", "el-GR-stavros",
      "zh-CN-zhang", "en-AU-sophia", "en-AU-kylie", "en-US-jayden", "en-IN-aarav",
      "en-US-matthew", "de-DE-björn", "zh-CN-yuxan", "ko-KR-jong-su", "en-AU-harper",
      "ta-IN-abirami", "en-UK-ruby", "ja-JP-kimi", "en-US-ken", "pt-BR-silvio",
      "de-DE-ralf", "en-UK-jaxon", "en-US-river", "en-IN-priya", "en-UK-theo",
      "en-UK-katie", "pl-PL-jacek", "en-US-maverick", "en-US-will", "hi-IN-aman",
      "en-US-amara", "en-UK-mason", "pt-BR-gustavo", "es-ES-javier", "en-AU-mitch",
      "pt-BR-heitor", "fr-CA-alexis", "en-US-edmund", "en-IN-anusha", "pl-PL-kasia",
      "es-MX-luisa", "zh-CN-tao", "en-US-molly"
    ],
    max_chars := 3000,
    supports_streaming := true,
    model_name := "Falcon",
    voice_info := [
      ("pa-IN-harman", VoiceInfo.mk "pa-IN-harman" "Harman" "male" "IN"),
      ("en-US-alina", VoiceInfo.mk "en-US-alina" "Alina" "female" "US"),
      ("en-UK-hazel", VoiceInfo.mk "en-UK-hazel" "Hazel" "female" "UK"),
      ("en-US-cooper", VoiceInfo.mk "en-US-cooper" "Cooper" "male" "US"),
      ("en-US-imani", VoiceInfo.mk "en-US-imani" "Imani" "female" "US"),
      ("mr-IN-rujuta", VoiceInfo.mk "mr-IN-rujuta" "Rujuta" "female" "IN"),
      ("en-US-wayne", VoiceInfo.mk "en-US-wayne" "Wayne" "male" "US"),
      ("kn-IN-rajesh", VoiceInfo.mk "kn-IN-rajesh" "Rajesh" "male" "IN"),
      ("en-US-daniel", VoiceInfo.mk "en-US-daniel" "Daniel" "male" "US"),
      ("hr-HR-marija", VoiceInfo.mk "hr-HR-marija" "Marija" "female" "HR"),
      ("en-IN-samar", VoiceInfo.mk "en-IN-samar" "Samar" "male" "IN"),
      ("bn-IN-anwesha", VoiceInfo.mk "bn-IN-anwesha" "Anwesha" "female" "IN"),
      ("hi-IN-khyati", VoiceInfo.mk "hi-IN-khyati" "Khyati" "female" "IN"),
      ("es-MX-alejandro", VoiceInfo.mk "es-MX-alejandro" "Alejandro" "male" "MX"),
      ("en-AU-joyce", VoiceInfo.mk "en-AU-joyce" "Joyce" "female" "AU"),
      ("en-US-zion", VoiceInfo.mk "en-US-zion" "Zion" "male" "US"),
      ("en-IN-isha", VoiceInfo.mk "en-IN-isha" "Isha" "female" "IN"),
      ("en-US-riley", VoiceInfo.mk "en-US-riley" "Riley" "female" "US"),
      ("en-US-carter", VoiceInfo.mk "en-US-carter" "Carter" "male" "US"),
      ("ta-IN-sarvesh", VoiceInfo.mk "ta-IN-sarvesh" "Sarvesh" "male" "IN"),
      ("en-UK-gabriel", VoiceInfo.mk "en-UK-gabriel" "Gabriel" "male" "UK"),
      ("en-UK-juliet", VoiceInfo.mk "en-UK-juliet" "Juliet" "female" "UK"),
      ("en-IN-arohi", VoiceInfo.mk "en-IN-arohi" "Arohi" "female" "IN"),
      ("de-DE-josephine", VoiceInfo.mk "de-DE-josephine" "Josephine" "female" "DE"),
      ("en-UK-hugo", VoiceInfo.mk "en-UK-hugo" "Hugo" "male" "UK"),
      ("en-US-samantha", VoiceInfo.mk "en-US-samantha" "Samantha" "female" "US"),
      ("de-DE-erna", VoiceInfo.mk "de-DE-erna" "Erna" "female" "DE"),
      ("en-IN-nikhil", VoiceInfo.mk "en-IN-nikhil" "Nikhil" "male" "IN"),
      ("en-IN-anisha", VoiceInfo.mk "en-IN-anisha" "Anisha" "female" "IN"),
      ("zh-CN-baolin", VoiceInfo.mk "zh-CN-baolin" "Baolin" "female" "CN"),
      ("pt-BR-isadora", VoiceInfo.mk "pt-BR-isadora" "Isadora" "female" "BR"),
      ("en-US-terrell", VoiceInfo.mk "en-US-terrell" "Terrell" "male" "US"),
      ("en-US-denzel", VoiceInfo.mk "en-US-denzel" "Denzel" "male" "US"),
      ("en-UK-heidi", VoiceInfo.mk "en-UK-heidi" "Heidi" "female" "UK"),
      ("en-US-miles", VoiceInfo.mk "en-US-miles" "Miles" "male" "US"),
      ("en-US-abigail", VoiceInfo.mk "en-US-abigail" "Abigail" "female" "US"),
      ("mr-IN-vaibhav", VoiceInfo.mk "mr-IN-vaibhav" "Vaibhav" "male" "IN"),
      ("en-AU-shane", VoiceInfo.mk "en-AU-shane" "Shane" "male" "AU"),
      ("ta-IN-murali", VoiceInfo.mk "ta-IN-murali" "Murali" "male" "IN"),
      ("en-UK-peter", VoiceInfo.mk "en-UK-peter" "Peter" "male" "UK"),
      ("it-IT-giulia", VoiceInfo.mk "it-IT-giulia" "Giulia" "female" "IT"),
      ("nl-NL-famke", VoiceInfo.mk "nl-NL-famke" "Famke" "female" "NL"),
      ("en-AU-ivy", VoiceInfo.mk "en-AU-ivy" "Ivy" "female" "AU"),
      ("nl-NL-dirk", VoiceInfo.mk "nl-NL-dirk" "Dirk" "male" "NL"),
      ("fr-FR-axel", VoiceInfo.mk "fr-FR-axel" "Axel" "male" "FR"),
      ("fr-FR-guillaume", VoiceInfo.mk "fr-FR-guillaume" "Guillaume" "male" "FR"),
      ("es-ES-carla", VoiceInfo.mk "es-ES-carla" "Carla" "female" "ES"),
      ("en-US-claire", VoiceInfo.mk "en-US-claire" "Claire" "female" "US"),
      ("ko-KR-jangmi", VoiceInfo.mk "ko-KR-jangmi" "Jangmi" "female" "KR"),
      ("ko-KR-sanghoon", VoiceInfo.mk "ko-KR-sanghoon" "SangHoon" "male" "KR"),
      ("ja-JP-denki", VoiceInfo.mk "ja-JP-denki" "Denki" "male" "JP"),
      ("es-ES-elvira", VoiceInfo.mk "es-ES-elvira" "Elvira" "female" "ES"),
      ("es-ES-enrique", VoiceInfo.mk "es-ES-enrique" "Enrique" "male" "ES"),
      ("en-UK-aiden", VoiceInfo.mk "en-UK-aiden" "Aiden" "male" "UK"),
      ("en-US-ronnie", VoiceInfo.mk "en-US-ronnie" "Ronnie" "male" "US"),
      ("en-UK-amber", VoiceInfo.mk "en-UK-amber" "Amber" "female" "UK"),
      ("en-AU-jimm", VoiceInfo.mk "en-AU-jimm" "Jimm" "male" "AU"),
      ("en-UK-pearl", VoiceInfo.mk "en-UK-pearl" "Pearl" "female" "UK"),
      ("pt-BR-benício", VoiceInfo.mk "pt-BR-benício" "Benício" "male" "BR"),
      ("en-UK-freddie", VoiceInfo.mk "en-UK-freddie" "Freddie" "male" "UK"),
      ("en-US-ryan", VoiceInfo.mk "en-US-ryan" "Ryan" "male" "US"),
      ("pt-BR-eloa", VoiceInfo.mk "pt-BR-eloa" "Eloa" "female" "BR"),
      ("hi-IN-karan", VoiceInfo.mk "hi-IN-karan" "Karan" "male" "IN"),
      ("en-US-charlotte", VoiceInfo.mk "en-US-charlotte" "Charlotte" "female" "US"),
      ("hi-IN-namrita", VoiceInfo.mk "hi-IN-namrita" "Namrita" "female" "IN"),
      ("de-DE-lia", VoiceInfo.mk "de-DE-lia" "Lia" "female" "DE"),
      ("en-US-natalie", VoiceInfo.mk "en-US-natalie" "Natalie" "female" "US"),
      ("ta-IN-suresh", VoiceInfo.mk "ta-IN-suresh" "Suresh" "male" "IN"),
      ("en-US-michelle", VoiceInfo.mk "en-US-michelle" "Michelle" "female" "US"),
      ("en-US-phoebe", VoiceInfo.mk "en-US-phoebe" "Phoebe" "female" "US"),
      ("es-ES-carmen", VoiceInfo.mk "es-ES-carmen" "Carmen" "female" "ES"),
      ("en-US-caleb", VoiceInfo.mk "en-US-caleb" "Caleb" "male" "US"),
      ("en-US-iris", VoiceInfo.mk "en-US-iris" "Iris" "female" "US"),
      ("en-UK-harrison", VoiceInfo.mk "en-UK-harrison" "Harrison" "male" "UK"),
      ("en-US-marcus", VoiceInfo.mk "en-US-marcus" "Marcus" "male" "US"),
      ("en-US-josie", VoiceInfo.mk "en-US-josie" "Josie" "female" "US"),
      ("en-US-ariana", VoiceInfo.mk "en-US-ariana" "Ariana" "female" "US"),
      ("en-US-daisy", VoiceInfo.mk "en-US-daisy" "Daisy" "female" "US"),
      ("en-US-charles", VoiceInfo.mk "en-US-charles" "Charles" "male" "US"),
      ("en-UK-reggie", VoiceInfo.mk "en-UK-reggie" "Reggie" "male" "UK"),
      ("en-US-julia", VoiceInfo.mk "en-US-julia" "Julia" "female" "US"),
      ("en-SCOTT-emily", VoiceInfo.mk "en-SCOTT-emily" "Emily" "female" "SCOTT"),
      ("en-US-dylan", VoiceInfo.mk "en-US-dylan" "Dylan" "male" "US"),
      ("es-MX-valeria", VoiceInfo.mk "es-MX-valeria" "Valeria" "female" "MX"),
      ("en-IN-eashwar", VoiceInfo.mk "en-IN-eashwar" "Eashwar" "male" "IN"),
      ("en-AU-evelyn", VoiceInfo.mk "en-AU-evelyn" "Evelyn" "female" "AU"),
      ("hi-IN-sunaina", VoiceInfo.mk "hi-IN-sunaina" "Sunaina" "female" "IN"),
      ("de-DE-lara", VoiceInfo.mk "de-DE-lara" "Lara" "female" "DE"),
      ("en-US-evander", VoiceInfo.mk "en-US-evander" "Evander" "male" "US"),
      ("en-IN-tanushree", VoiceInfo.mk "en-IN-tanushree" "Tanushree" "female" "IN"),
      ("en-SCOTT-rory", VoiceInfo.mk "en-SCOTT-rory" "Rory" "male" "SCOTT"),
      ("pt-BR-yago", VoiceInfo.mk "pt-BR-yago" "Yago" "male" "BR"),
      ("ta-IN-iniya", VoiceInfo.mk "ta-IN-iniya" "Iniya" "female" "IN"),
      ("en-AU-leyton", VoiceInfo.mk "en-AU-leyton" "Leyton" "male" "AU"),
      ("zh-CN-wei", VoiceInfo.mk "zh-CN-wei" "Wei" "female" "CN"),
      ("de-DE-matthias", VoiceInfo.mk "de-DE-matthias" "Matthias" "male" "DE"),
      ("it-IT-angelo", VoiceInfo.mk "it-IT-angelo" "Angelo" "male" "IT"),
      ("en-IN-rohan", VoiceInfo.mk "en-IN-rohan" "Rohan" "male" "IN"),
      ("en-US-delilah", VoiceInfo.mk "en-US-delilah" "Delilah" "female" "US"),
      ("en-US-paul", VoiceInfo.mk "en-US-paul" "Paul" "male" "US"),
      ("en-US-lucas", VoiceInfo.mk "en-US-lucas" "Lucas" "male" "US"),
      ("bn-IN-abhik", VoiceInfo.mk "bn-IN-abhik" "Abhik" "male" "IN"),
      ("en-US-angela", VoiceInfo.mk "en-US-angela" "Angela" "female" "US"),
      ("en-US-naomi", VoiceInfo.mk "en-US-naomi" "Naomi" "female" "US"),
      ("es-MX-carlos", VoiceInfo.mk "es-MX-carlos" "Carlos" "male" "MX"),
      ("nl-NL-merel", VoiceInfo.mk "nl-NL-merel" "Merel" "female" "NL"),
      ("ja-JP-kenji", VoiceInfo.mk "ja-JP-kenji" "Kenji" "male" "JP"),
      ("en-US-alicia", VoiceInfo.mk "en-US-alicia" "Alicia" "female" "US"),
      ("en-IN-alia", VoiceInfo.mk "en-IN-alia" "Alia" "female" "IN"),
      ("zh-CN-jiao", VoiceInfo.mk "zh-CN-jiao" "Jiao" "female" "CN"),
      ("en-US-june", VoiceInfo.mk "en-US-june" "June" "female" "US"),
      ("en-AU-ashton", VoiceInfo.mk "en-AU-ashton" "Ashton" "male" "AU"),
      ("en-UK-finley", VoiceInfo.mk "en-UK-finley" "Finley" "male" "UK"),
      ("pl-PL-blazej", VoiceInfo.mk "pl-PL-blazej" "Blazej" "male" "PL"),
      ("el-GR-stavros", VoiceInfo.mk "el-GR-stavros" "Stavros" "male" "GR"),
      ("zh-CN-zhang", VoiceInfo.mk "zh-CN-zhang" "Zhang" "male" "CN"),
      ("en-AU-sophia", VoiceInfo.mk "en-AU-sophia" "Sophia" "female" "AU"),
      ("en-AU-kylie", VoiceInfo.mk "en-AU-kylie" "Kylie" "female" "AU"),
      ("en-US-jayden", VoiceInfo.mk "en-US-jayden" "Jayden" "male" "US"),
      ("en-IN-aarav", VoiceInfo.mk "en-IN-aarav" "Aarav" "male" "IN"),
      ("en-US-matthew", VoiceInfo.mk "en-US-matthew" "Matthew" "male" "US"),
      ("de-DE-björn", VoiceInfo.mk "de-DE-björn" "Björn" "male" "DE"),
      ("zh-CN-yuxan", VoiceInfo.mk "zh-CN-yuxan" "Yuxan" "male" "CN"),
      ("ko-KR-jong-su", VoiceInfo.mk "ko-KR-jong-su" "Jong-su" "male" "KR"),
      ("en-AU-harper", VoiceInfo.mk "en-AU-harper" "Harper" "male" "AU"),
      ("ta-IN-abirami", VoiceInfo.mk "ta-IN-abirami" "Abirami" "female" "IN"),
      ("en-UK-ruby", VoiceInfo.mk "en-UK-ruby" "Ruby" "female" "UK"),
      ("ja-JP-kimi", VoiceInfo.mk "ja-JP-kimi" "Kimi" "female" "JP"),
      ("en-US-ken", VoiceInfo.mk "en-US-ken" "Ken" "male" "US"),
      ("pt-BR-silvio", VoiceInfo.mk "pt-BR-silvio" "Silvio" "male" "BR"),
      ("de-DE-ralf", VoiceInfo.mk "de-DE-ralf" "Ralf" "male" "DE"),
      ("en-UK-jaxon", VoiceInfo.mk "en-UK-jaxon" "Jaxon" "male" "UK"),
      ("en-US-river", VoiceInfo.mk "en-US-river" "River" "nonbinary" "US"),
      ("en-IN-priya", VoiceInfo.mk "en-IN-priya" "Priya" "female" "IN"),
      ("en-UK-theo", VoiceInfo.mk "en-UK-theo" "Theo" "male" "UK"),
      ("en-UK-katie", VoiceInfo.mk "en-UK-katie" "Katie" "female" "UK"),
      ("pl-PL-jacek", VoiceInfo.mk "pl-PL-jacek" "Jacek" "male" "PL"),
      ("en-US-maverick", VoiceInfo.mk "en-US-maverick" "Maverick" "male" "US"),
      ("en-US-will", VoiceInfo.mk "en-US-will" "Will" "male" "US"),
      ("hi-IN-aman", VoiceInfo.mk "hi-IN-aman" "Aman" "male" "IN"),
      ("en-US-amara", VoiceInfo.mk "en-US-amara" "Amara" "female" "US"),
      ("en-UK-mason", VoiceInfo.mk "en-UK-mason" "Mason" "male" "UK"),
      ("pt-BR-gustavo", VoiceInfo.mk "pt-BR-gustavo" "Gustavo" "male" "BR"),
      ("es-ES-javier", VoiceInfo.mk "es-ES-javier" "Javier" "male" "ES"),
      ("en-AU-mitch", VoiceInfo.mk "en-AU-mitch" "Mitch" "male" "AU"),
      ("pt-BR-heitor", VoiceInfo.mk "pt-BR-heitor" "Heitor" "male" "BR"),
      ("fr-CA-alexis", VoiceInfo.mk "fr-CA-alexis" "Alexis" "male" "CA"),
      ("en-US-edmund", VoiceInfo.mk "en-US-edmund" "Edmund" "male" "US"),
      ("en-IN-anusha", VoiceInfo.mk "en-IN-anusha" "Anusha" "female" "IN"),
      ("pl-PL-kasia", VoiceInfo.mk "pl-PL-kasia" "Kasia" "female" "PL"),
      ("es-MX-luisa", VoiceInfo.mk "es-MX-luisa" "Luisa" "female" "MX"),
      ("zh-CN-tao", VoiceInfo.mk "zh-CN-tao" "Tao" "male" "CN"),
      ("en-US-molly", VoiceInfo.mk "en-US-molly" "Molly" "female" "US")
    ] }

def murfZeroshotConfig : TTSConfig :=
  { name := "Murf Zeroshot",
    api_key_env := "MURF_DEV_API_KEY",
    base_url := "https://api.dev.murf.ai/v1/speech/stream",
    supported_voices := [
      "pa-IN-harman", "en-US-alina", "en-UK-hazel", "en-US-cooper", "en-US-imani",
      "mr-IN-rujuta", "en-US-wayne", "kn-IN-rajesh", "en-US-daniel", "hr-HR-marija",
      "en-IN-samar", "bn-IN-anwesha", "hi-IN-khyati", "es-MX-alejandro", "en-AU-joyce",
      "en-US-zion", "en-IN-isha", "en-US-riley", "en-US-carter", "ta-IN-sarvesh",
      "en-UK-gabriel", "en-UK-juliet", "en-IN-arohi", "de-DE-josephine", "en-UK-hugo",
      "en-US-samantha", "de-DE-erna", "en-IN-nikhil", "en-IN-anisha", "zh-CN-baolin",
      "pt-BR-isadora", "en-US-terrell", "en-US-denzel", "en-UK-heidi", "en-US-miles",
      "en-US-abigail", "mr-IN-vaibhav", "en-AU-shane", "ta-IN-murali", "en-UK-peter",
      "it-IT-giulia", "nl-NL-famke", "en-AU-ivy", "nl-NL-dirk", "fr-FR-axel",
      "fr-FR-guillaume", "es-ES-carla", "en-US-claire", "ko-KR-jangmi", "ko-KR-sanghoon",
      "ja-JP-denki", "es-ES-elvira", "es-ES-enrique", "en-UK-aiden", "en-US-ronnie",
      "en-UK-amber", "en-AU-jimm", "en-UK-pearl", "pt-BR-benício", "en-UK-freddie",
      "en-US-ryan", "pt-BR-eloa", "hi-IN-karan", "en-US-charlotte", "hi-IN-namrita",
      "de-DE-lia", "en-US-natalie", "ta-IN-suresh", "en-US-michelle", "en-US-phoebe",
      "es-ES-carmen", "en-US-caleb", "en-US-iris", "en-UK-harrison", "en-US-marcus",
      "en-US-josie", "en-US-ariana", "en-US-daisy", "en-US-charles", "en-UK-reggie",
      "en-US-julia", "en-SCOTT-emily", "en-US-dylan", "es-MX-valeria", "en-IN-eashwar",
      "en-AU-evelyn", "hi-IN-sunaina", "de-DE-lara", "en-US-evander", "en-IN-tanushree",
      "en-SCOTT-rory", "pt-BR-yago", "ta-IN-iniya", "en-AU-leyton", "zh-CN-wei",
      "de-DE-matthias", "it-IT-angelo", "en-IN-rohan", "en-US-delilah", "en-US-paul",
      "en-US-lucas", "bn-IN-abhik", "en-US-angela", "en-US-naomi", "es-MX-carlos",
      "nl-NL-merel", "ja-JP-kenji", "en-US-alicia", "en-IN-alia", "zh-CN-jiao",
      "en-US-june", "en-AU-ashton", "en-UK-finley", "pl-PL-blazej", "el-GR-stavros",
      "zh-CN-zhang", "en-AU-sophia", "en-AU-kylie", "en-US-jayden", "en-IN-aarav",
      "en-US-matthew", "de-DE-björn", "zh-CN-yuxan", "ko-KR-jong-su", "en-AU-harper",
      "ta-IN-abirami", "en-UK-ruby", "ja-JP-kimi", "en-US-ken", "pt-BR-silvio",
      "de-DE-ralf", "en-UK-jaxon", "en-US-river", "en-IN-priya", "en-UK-theo",
      "en-UK-katie", "pl-PL-jacek", "en-US-maverick", "en-US-will", "hi-IN-aman",
      "en-US-amara", "en-UK-mason", "pt-BR-gustavo", "es-ES-javier", "en-AU-mitch",
      "pt-BR-heitor", "fr-CA-alexis", "en-US-edmund", "en-IN-anusha", "pl-PL-kasia",
      "es-MX-luisa", "zh-CN-tao", "en-US-molly"
    ],
    max_chars := 3000,
    supports_streaming := true,
    model_name := "Zeroshot",
    voice_info := [
      ("pa-IN-harman", VoiceInfo.mk "pa-IN-harman" "Harman" "male" "IN"),
      ("en-US-alina", VoiceInfo.mk "en-US-alina" "Alina" "female" "US"),
      ("en-UK-hazel", VoiceInfo.mk "en-UK-hazel" "Hazel" "female" "UK"),
      ("en-US-cooper", VoiceInfo.mk "en-US-cooper" "Cooper" "male" "US"),
      ("en-US-imani", VoiceInfo.mk "en-US-imani" "Imani" "female" "US"),
      ("mr-IN-rujuta", VoiceInfo.mk "mr-IN-rujuta" "Rujuta" "female" "IN"),
      ("en-US-wayne", VoiceInfo.mk "en-US-wayne" "Wayne" "male" "US"),
      ("kn-IN-rajesh", VoiceInfo.mk "kn-IN-rajesh" "Rajesh" "male" "IN"),
      ("en-US-daniel", VoiceInfo.mk "en-US-daniel" "Daniel" "male" "US"),
      ("hr-HR-marija", VoiceInfo.mk "hr-HR-marija" "Marija" "female" "HR"),
      ("en-IN-samar", VoiceInfo.mk "en-IN-samar" "Samar" "male" "IN"),
      ("bn-IN-anwesha", VoiceInfo.mk "bn-IN-anwesha" "Anwesha" "female" "IN"),
      ("hi-IN-khyati", VoiceInfo.mk "hi-IN-khyati" "Khyati" "female" "IN"),
      ("es-MX-alejandro", VoiceInfo.mk "es-MX-alejandro" "Alejandro" "male" "MX"),
      ("en-AU-joyce", VoiceInfo.mk "en-AU-joyce" "Joyce" "female" "AU"),
      ("en-US-zion", VoiceInfo.mk "en-US-zion" "Zion" "male" "US"),
      ("en-IN-isha", VoiceInfo.mk "en-IN-isha" "Isha" "female" "IN"),
      ("en-US-riley", VoiceInfo.mk "en-US-riley" "Riley" "female" "US"),
      ("en-US-carter", VoiceInfo.mk "en-US-carter" "Carter" "male" "US"),
      ("ta-IN-sarvesh", VoiceInfo.mk "ta-IN-sarvesh" "Sarvesh" "male" "IN"),
      ("en-UK-gabriel", VoiceInfo.mk "en-UK-gabriel" "Gabriel" "male" "UK"),
      ("en-UK-juliet", VoiceInfo.mk "en-UK-juliet" "Juliet" "female" "UK"),
      ("en-IN-arohi", VoiceInfo.mk "en-IN-arohi" "Arohi" "female" "IN"),
      ("de-DE-josephine", VoiceInfo.mk "de-DE-josephine" "Josephine" "female" "DE"),
      ("en-UK-hugo", VoiceInfo.mk "en-UK-hugo" "Hugo" "male" "UK"),
      ("en-US-samantha", VoiceInfo.mk "en-US-samantha" "Samantha" "female" "US"),
      ("de-DE-erna", VoiceInfo.mk "de-DE-erna" "Erna" "female" "DE"),
      ("en-IN-nikhil", VoiceInfo.mk "en-IN-nikhil" "Nikhil" "male" "IN"),
      ("en-IN-anisha", VoiceInfo.mk "en-IN-anisha" "Anisha" "female" "IN"),
      ("zh-CN-baolin", VoiceInfo.mk "zh-CN-baolin" "Baolin" "female" "CN"),
      ("pt-BR-isadora", VoiceInfo.mk "pt-BR-isadora" "Isadora" "female" "BR"),
      ("en-US-terrell", VoiceInfo.mk "en-US-terrell" "Terrell" "male" "US"),
      ("en-US-denzel", VoiceInfo.mk "en-US-denzel" "Denzel" "male" "US"),
      ("en-UK-heidi", VoiceInfo.mk "en-UK-heidi" "Heidi" "female" "UK"),
      ("en-US-miles", VoiceInfo.mk "en-US-miles" "Miles" "male" "US"),
      ("en-US-abigail", VoiceInfo.mk "en-US-abigail" "Abigail" "female" "US"),
      ("mr-IN-vaibhav", VoiceInfo.mk "mr-IN-vaibhav" "Vaibhav" "male" "IN"),
      ("en-AU-shane", VoiceInfo.mk "en-AU-shane" "Shane" "male" "AU"),
      ("ta-IN-murali", VoiceInfo.mk "ta-IN-murali" "Murali" "male" "IN"),
      ("en-UK-peter", VoiceInfo.mk "en-UK-peter" "Peter" "male" "UK"),
      ("it-IT-giulia", VoiceInfo.mk "it-IT-giulia" "Giulia" "female" "IT"),
      ("nl-NL-famke", VoiceInfo.mk "nl-NL-famke" "Famke" "female" "NL"),
      ("en-AU-ivy", VoiceInfo.mk "en-AU-ivy" "Ivy" "female" "AU"),
      ("nl-NL-dirk", VoiceInfo.mk "nl-NL-dirk" "Dirk" "male" "NL"),
      ("fr-FR-axel", VoiceInfo.mk "fr-FR-axel" "Axel" "male" "FR"),
      ("fr-FR-guillaume", VoiceInfo.mk "fr-FR-guillaume" "Guillaume" "male" "FR"),
      ("es-ES-carla", VoiceInfo.mk "es-ES-carla" "Carla" "female" "ES"),
      ("en-US-claire", VoiceInfo.mk "en-US-claire" "Claire" "female" "US"),
      ("ko-KR-jangmi", VoiceInfo.mk "ko-KR-jangmi" "Jangmi" "female" "KR"),
      ("ko-KR-sanghoon", VoiceInfo.mk "ko-KR-sanghoon" "SangHoon" "male" "KR"),
      ("ja-JP-denki", VoiceInfo.mk "ja-JP-denki" "Denki" "male" "JP"),
      ("es-ES-elvira", VoiceInfo.mk "es-ES-elvira" "Elvira" "female" "ES"),
      ("es-ES-enrique", VoiceInfo.mk "es-ES-enrique" "Enrique" "male" "ES"),
      ("en-UK-aiden", VoiceInfo.mk "en-UK-aiden" "Aiden" "male" "UK"),
      ("en-US-ronnie", VoiceInfo.mk "en-US-ronnie" "Ronnie" "male" "US"),
      ("en-UK-amber", VoiceInfo.mk "en-UK-amber" "Amber" "female" "UK"),
      ("en-AU-jimm", VoiceInfo.mk "en-AU-jimm" "Jimm" "male" "AU"),
      ("en-UK-pearl", VoiceInfo.mk "en-UK-pearl" "Pearl" "female" "UK"),
      ("pt-BR-benício", VoiceInfo.mk "pt-BR-benício" "Benício" "male" "BR"),
      ("en-UK-freddie", VoiceInfo.mk "en-UK-freddie" "Freddie" "male" "UK"),
      ("en-US-ryan", VoiceInfo.mk "en-US-ryan" "Ryan" "male" "US"),
      ("pt-BR-eloa", VoiceInfo.mk "pt-BR-eloa" "Eloa" "female" "BR"),
      ("hi-IN-karan", VoiceInfo.mk "hi-IN-karan" "Karan" "male" "IN"),
      ("en-US-charlotte", VoiceInfo.mk "en-US-charlotte" "Charlotte" "female" "US"),
      ("hi-IN-namrita", VoiceInfo.mk "hi-IN-namrita" "Namrita" "female" "IN"),
      ("de-DE-lia", VoiceInfo.mk "de-DE-lia" "Lia" "female" "DE"),
      ("en-US-natalie", VoiceInfo.mk "en-US-natalie" "Natalie" "female" "US"),
      ("ta-IN-suresh", VoiceInfo.mk "ta-IN-suresh" "Suresh" "male" "IN"),
      ("en-US-michelle", VoiceInfo.mk "en-US-michelle" "Michelle" "female" "US"),
      ("en-US-phoebe", VoiceInfo.mk "en-US-phoebe" "Phoebe" "female" "US"),
      ("es-ES-carmen", VoiceInfo.mk "es-ES-carmen" "Carmen" "female" "ES"),
      ("en-US-caleb", VoiceInfo.mk "en-US-caleb" "Caleb" "male" "US"),
      ("en-US-iris", VoiceInfo.mk "en-US-iris" "Iris" "female" "US"),
      ("en-UK-harrison", VoiceInfo.mk "en-UK-harrison" "Harrison" "male" "UK"),
      ("en-US-marcus", VoiceInfo.mk "en-US-marcus" "Marcus" "male" "US"),
      ("en-US-josie", VoiceInfo.mk "en-US-josie" "Josie" "female" "US"),
      ("en-US-ariana", VoiceInfo.mk "en-US-ariana" "Ariana" "female" "US"),
      ("en-US-daisy", VoiceInfo.mk "en-US-daisy" "Daisy" "female" "US"),
      ("en-US-charles", VoiceInfo.mk "en-US-charles" "Charles" "male" "US"),
      ("en-UK-reggie", VoiceInfo.mk "en-UK-reggie" "Reggie" "male" "UK"),
      ("en-US-julia", VoiceInfo.mk "en-US-julia" "Julia" "female" "US"),
      ("en-SCOTT-emily", VoiceInfo.mk "en-SCOTT-emily" "Emily" "female" "SCOTT"),
      ("en-US-dylan", VoiceInfo.mk "en-US-dylan" "Dylan" "male" "US"),
      ("es-MX-valeria", VoiceInfo.mk "es-MX-valeria" "Valeria" "female" "MX"),
      ("en-IN-eashwar", VoiceInfo.mk "en-IN-eashwar" "Eashwar" "male" "IN"),
      ("en-AU-evelyn", VoiceInfo.mk "en-AU-evelyn" "Evelyn" "female" "AU"),
      ("hi-IN-sunaina", VoiceInfo.mk "hi-IN-sunaina" "Sunaina" "female" "IN"),
      ("de-DE-lara", VoiceInfo.mk "de-DE-lara" "Lara" "female" "DE"),
      ("en-US-evander", VoiceInfo.mk "en-US-evander" "Evander" "male" "US"),
      ("en-IN-tanushree", VoiceInfo.mk "en-IN-tanushree" "Tanushree" "female" "IN"),
      ("en-SCOTT-rory", VoiceInfo.mk "en-SCOTT-rory" "Rory" "male" "SCOTT"),
      ("pt-BR-yago", VoiceInfo.mk "pt-BR-yago" "Yago" "male" "BR"),
      ("ta-IN-iniya", VoiceInfo.mk "ta-IN-iniya" "Iniya" "female" "IN"),
      ("en-AU-leyton", VoiceInfo.mk "en-AU-leyton" "Leyton" "male" "AU"),
      ("zh-CN-wei", VoiceInfo.mk "zh-CN-wei" "Wei" "female" "CN"),
      ("de-DE-matthias", VoiceInfo.mk "de-DE-matthias" "Matthias" "male" "DE"),
      ("it-IT-angelo", VoiceInfo.mk "it-IT-angelo" "Angelo" "male" "IT"),
      ("en-IN-rohan", VoiceInfo.mk "en-IN-rohan" "Rohan" "male" "IN"),
      ("en-US-delilah", VoiceInfo.mk "en-US-delilah" "Delilah" "female" "US"),
      ("en-US-paul", VoiceInfo.mk "en-US-paul" "Paul" "male" "US"),
      ("en-US-lucas", VoiceInfo.mk "en-US-lucas" "Lucas" "male" "US"),
      ("bn-IN-abhik", VoiceInfo.mk "bn-IN-abhik" "Abhik" "male" "IN"),
      ("en-US-angela", VoiceInfo.mk "en-US-angela" "Angela" "female" "US"),
      ("en-US-naomi", VoiceInfo.mk "en-US-naomi" "Naomi" "female" "US"),
      ("es-MX-carlos", VoiceInfo.mk "es-MX-carlos" "Carlos" "male" "MX"),
      ("nl-NL-merel", VoiceInfo.mk "nl-NL-merel" "Merel" "female" "NL"),
      ("ja-JP-kenji", VoiceInfo.mk "ja-JP-kenji" "Kenji" "male" "JP"),
      ("en-US-alicia", VoiceInfo.mk "en-US-alicia" "Alicia" "female" "US"),
      ("en-IN-alia", VoiceInfo.mk "en-IN-alia" "Alia" "female" "IN"),
      ("zh-CN-jiao", VoiceInfo.mk "zh-CN-jiao" "Jiao" "female" "CN"),
      ("en-US-june", VoiceInfo.mk "en-US-june" "June" "female" "US"),
      ("en-AU-ashton", VoiceInfo.mk "en-AU-ashton" "Ashton" "male" "AU"),
      ("en-UK-finley", VoiceInfo.mk "en-UK-finley" "Finley" "male" "UK"),
      ("pl-PL-blazej", VoiceInfo.mk "pl-PL-blazej" "Blazej" "male" "PL"),
      ("el-GR-stavros", VoiceInfo.mk "el-GR-stavros" "Stavros" "male" "GR"),
      ("zh-CN-zhang", VoiceInfo.mk "zh-CN-zhang" "Zhang" "male" "CN"),
      ("en-AU-sophia", VoiceInfo.mk "en-AU-sophia" "Sophia" "female" "AU"),
      ("en-AU-kylie", VoiceInfo.mk "en-AU-kylie" "Kylie" "female" "AU"),
      ("en-US-jayden", VoiceInfo.mk "en-US-jayden" "Jayden" "male" "US"),
      ("en-IN-aarav", VoiceInfo.mk "en-IN-aarav" "Aarav" "male" "IN"),
      ("en-US-matthew", VoiceInfo.mk "en-US-matthew" "Matthew" "male" "US"),
      ("de-DE-björn", VoiceInfo.mk "de-DE-björn" "Björn" "male" "DE"),
      ("zh-CN-yuxan", VoiceInfo.mk "zh-CN-yuxan" "Yuxan" "male" "CN"),
      ("ko-KR-jong-su", VoiceInfo.mk "ko-KR-jong-su" "Jong-su" "male" "KR"),
      ("en-AU-harper", VoiceInfo.mk "en-AU-harper" "Harper" "male" "AU"),
      ("ta-IN-abirami", VoiceInfo.mk "ta-IN-abirami" "Abirami" "female" "IN"),
      ("en-UK-ruby", VoiceInfo.mk "en-UK-ruby" "Ruby" "female" "UK"),
      ("ja-JP-kimi", VoiceInfo.mk "ja-JP-kimi" "Kimi" "female" "JP"),
      ("en-US-ken", VoiceInfo.mk "en-US-ken" "Ken" "male" "US"),
      ("pt-BR-silvio", VoiceInfo.mk "pt-BR-silvio" "Silvio" "male" "BR"),
      ("de-DE-ralf", VoiceInfo.mk "de-DE-ralf" "Ralf" "male" "DE"),
      ("en-UK-jaxon", VoiceInfo.mk "en-UK-jaxon" "Jaxon" "male" "UK"),
      ("en-US-river", VoiceInfo.mk "en-US-river" "River" "nonbinary" "US"),
      ("en-IN-priya", VoiceInfo.mk "en-IN-priya" "Priya" "female" "IN"),
      ("en-UK-theo", VoiceInfo.mk "en-UK-theo" "Theo" "male" "UK"),
      ("en-UK-katie", VoiceInfo.mk "en-UK-katie" "Katie" "female" "UK"),
      ("pl-PL-jacek", VoiceInfo.mk "pl-PL-jacek" "Jacek" "male" "PL"),
      ("en-US-maverick", VoiceInfo.mk "en-US-maverick" "Maverick" "male" "US"),
      ("en-US-will", VoiceInfo.mk "en-US-will" "Will" "male" "US"),
      ("hi-IN-aman", VoiceInfo.mk "hi-IN-aman" "Aman" "male" "IN"),
      ("en-US-amara", VoiceInfo.mk "en-US-amara" "Amara" "female" "US"),
      ("en-UK-mason", VoiceInfo.mk "en-UK-mason" "Mason" "male" "UK"),
      ("pt-BR-gustavo", VoiceInfo.mk "pt-BR-gustavo" "Gustavo" "male" "BR"),
      ("es-ES-javier", VoiceInfo.mk "es-ES-javier" "Javier" "male" "ES"),
      ("en-AU-mitch", VoiceInfo.mk "en-AU-mitch" "Mitch" "male" "AU"),
      ("pt-BR-heitor", VoiceInfo.mk "pt-BR-heitor" "Heitor" "male" "BR"),
      ("fr-CA-alexis", VoiceInfo.mk "fr-CA-alexis" "Alexis" "male" "CA"),
      ("en-US-edmund", VoiceInfo.mk "en-US-edmund" "Edmund" "male" "US"),
      ("en-IN-anusha", VoiceInfo.mk "en-IN-anusha" "Anusha" "female" "IN"),
      ("pl-PL-kasia", VoiceInfo.mk "pl-PL-kasia" "Kasia" "female" "PL"),
      ("es-MX-luisa", VoiceInfo.mk "es-MX-luisa" "Luisa" "female" "MX"),
      ("zh-CN-tao", VoiceInfo.mk "zh-CN-tao" "Tao" "male" "CN"),
      ("en-US-molly", VoiceInfo.mk "en-US-molly" "Molly" "female" "US")
    ] }

def deepgramConfig : TTSConfig :=
  { name := "Deepgram Aura 1",
    api_key_env := "DEEPGRAM_API_KEY",
    base_url := "https://api.deepgram.com/v1/speak",
    supported_voices := [
      "aura-asteria-en", "aura-luna-en", "aura-stella-en", "aura-athena-en", "aura-hera-en",
      "aura-orion-en"
    ],
    max_chars := 2000,
    supports_streaming := true,
    model_name := "aura-1",
    voice_info := [
      ("aura-asteria-en", VoiceInfo.mk "aura-asteria-en" "Asteria" "female" "US"),
      ("aura-luna-en", VoiceInfo.mk "aura-luna-en" "Luna" "female" "US"),
      ("aura-stella-en", VoiceInfo.mk "aura-stella-en" "Stella" "female" "US"),
      ("aura-athena-en", VoiceInfo.mk "aura-athena-en" "Athena" "female" "US"),
      ("aura-hera-en", VoiceInfo.mk "aura-hera-en" "Hera" "female" "US"),
      ("aura-orion-en", VoiceInfo.mk "aura-orion-en" "Orion" "male" "US")
    ] }

def deepgramAura2Config : TTSConfig :=
  { name := "Deepgram Aura 2",
    api_key_env := "DEEPGRAM_API_KEY",
    base_url := "https://api.deepgram.com/v1/speak",
    supported_voices := [
      "aura-2-asteria-en", "aura-2-luna-en", "aura-2-athena-en", "aura-2-hera-en", "aura-2-orion-en",
      "aura-2-apollo-en"
    ],
    max_chars := 2000,
    supports_streaming := true,
    model_name := "aura-2",
    voice_info := [
      ("aura-2-asteria-en", VoiceInfo.mk "aura-2-asteria-en" "Asteria" "female" "US"),
      ("aura-2-luna-en", VoiceInfo.mk "aura-2-luna-en" "Luna" "female" "US"),
      ("aura-2-athena-en", VoiceInfo.mk "aura-2-athena-en" "Athena" "female" "US"),
      ("aura-2-hera-en", VoiceInfo.mk "aura-2-hera-en" "Hera" "female" "US"),
      ("aura-2-orion-en", VoiceInfo.mk "aura-2-orion-en" "Orion" "male" "US"),
      ("aura-2-apollo-en", VoiceInfo.mk "aura-2-apollo-en" "Apollo" "male" "US")
    ] }

def elevenlabsFlashConfig : TTSConfig :=
  { name := "ElevenLabs Flash",
    api_key_env := "ELEVENLABS_API_KEY",
    base_url := "https://api.elevenlabs.io/v1/text-to-speech",
    supported_voices := [
      "Laura", "Jessica", "Liam", "Elizabeth", "Jarnathan",
      "Dan", "Nathaniel"
    ],
    max_chars := 5000,
    supports_streaming := true,
    model_name := "eleven_flash_v2_5",
    voice_info := [
      ("Laura", VoiceInfo.mk "Laura" "Laura" "female" "US"),
      ("Jessica", VoiceInfo.mk "Jessica" "Jessica" "female" "US"),
      ("Liam", VoiceInfo.mk "Liam" "Liam" "male" "US"),
      ("Elizabeth", VoiceInfo.mk "Elizabeth" "Elizabeth" "female" "UK"),
      ("Jarnathan", VoiceInfo.mk "Jarnathan" "Jarnathan" "male" "US"),
      ("Dan", VoiceInfo.mk "Dan" "Dan" "male" "UK"),
      ("Nathaniel", VoiceInfo.mk "Nathaniel" "Nathaniel" "male" "UK")
    ] }

def elevenlabsV3Config : TTSConfig :=
  { name := "ElevenLabs v3",
    api_key_env := "ELEVENLABS_API_KEY",
    base_url := "https://api.elevenlabs.io/v1/text-to-speech",
    supported_voices := [
      "Laura", "Jessica", "Liam", "Elizabeth", "Jarnathan",
      "Dan", "Nathaniel"
    ],
    max_chars := 5000,
    supports_streaming := true,
    model_name := "eleven_v3",
    voice_info := [
      ("Laura", VoiceInfo.mk "Laura" "Laura" "female" "US"),
      ("Jessica", VoiceInfo.mk "Jessica" "Jessica" "female" "US"),
      ("Liam", VoiceInfo.mk "Liam" "Liam" "male" "US"),
      ("Elizabeth", VoiceInfo.mk "Elizabeth" "Elizabeth" "female" "UK"),
      ("Jarnathan", VoiceInfo.mk "Jarnathan" "Jarnathan" "male" "US"),
      ("Dan", VoiceInfo.mk "Dan" "Dan" "male" "UK"),
      ("Nathaniel", VoiceInfo.mk "Nathaniel" "Nathaniel" "male" "UK")
    ] }

def openaiConfig : TTSConfig :=
  { name := "OpenAI",
    api_key_env := "OPENAI_API_KEY",
    base_url := "https://api.openai.com/v1/audio/speech",
    supported_voices := [
      "echo", "alloy", "nova", "shimmer", "onyx",
      "fable"
    ],
    max_chars := 4096,
    supports_streaming := true,
    model_name := "gpt-4o-mini-tts",
    voice_info := [
      ("echo", VoiceInfo.mk "echo" "Echo" "male" "US"),
      ("alloy", VoiceInfo.mk "alloy" "Alloy" "female" "US"),
      ("nova", VoiceInfo.mk "nova" "Nova" "female" "US"),
      ("shimmer", VoiceInfo.mk "shimmer" "Shimmer" "female" "US"),
      ("onyx", VoiceInfo.mk "onyx" "Onyx" "male" "US"),
      ("fable", VoiceInfo.mk "fable" "Fable" "male" "UK")
    ] }

def cartesiaSonic2Config : TTSConfig :=
  { name := "Cartesia Sonic 2.0",
    api_key_env := "CARTESIA_API_KEY",
    base_url := "https://api.cartesia.ai/tts/bytes",
    supported_voices := [
      "British Lady", "Conversational Lady", "Classy British Man", "Friendly Reading Man", "Midwestern Woman",
      "Professional Man"
    ],
    max_chars := 5000,
    supports_streaming := true,
    model_name := "Cartesia Sonic 2.0",
    voice_info := [
      ("British Lady", VoiceInfo.mk "British Lady" "British Lady" "female" "UK"),
      ("Conversational Lady", VoiceInfo.mk "Conversational Lady" "Conversational Lady" "male" "US"),
      ("Classy British Man", VoiceInfo.mk "Classy British Man" "Classy British Man" "male" "UK"),
      ("Friendly Reading Man", VoiceInfo.mk "Friendly Reading Man" "Friendly Reading Man" "male" "US"),
      ("Midwestern Woman", VoiceInfo.mk "Midwestern Woman" "Midwestern Woman" "female" "US"),
      ("Professional Man", VoiceInfo.mk "Professional Man" "Professional Man" "male" "US")
    ] }

def cartesiaTurboConfig : TTSConfig :=
  { name := "Cartesia Sonic Turbo",
    api_key_env := "CARTESIA_API_KEY",
    base_url := "https://api.cartesia.ai/tts/bytes",
    supported_voices := [
      "British Lady", "Conversational Lady", "Classy British Man", "Friendly Reading Man", "Midwestern Woman",
      "Professional Man"
    ],
    max_chars := 5000,
    supports_streaming := true,
    model_name := "Cartesia Sonic Turbo",
    voice_info := [
      ("British Lady", VoiceInfo.mk "British Lady" "British Lady" "female" "UK"),
      ("Conversational Lady", VoiceInfo.mk "Conversational Lady" "Conversational Lady" "male" "US"),
      ("Classy British Man", VoiceInfo.mk "Classy British Man" "Classy British Man" "male" "UK"),
      ("Friendly Reading Man", VoiceInfo.mk "Friendly Reading Man" "Friendly Reading Man" "male" "US"),
      ("Midwestern Woman", VoiceInfo.mk "Midwestern Woman" "Midwestern Woman" "female" "US"),
      ("Professional Man", VoiceInfo.mk "Professional Man" "Professional Man" "male" "US")
    ] }

def cartesiaSonic3Config : TTSConfig :=
  { name := "Cartesia Sonic 3",
    api_key_env := "CARTESIA_API_KEY",
    base_url := "https://api.cartesia.ai/tts/bytes",
    supported_voices := [
      "British Lady", "Conversational Lady", "Classy British Man", "Friendly Reading Man", "Midwestern Woman",
      "Professional Man"
    ],
    max_chars := 5000,
    supports_streaming := true,
    model_name := "Cartesia Sonic 3.0",
    voice_info := [
      ("British Lady", VoiceInfo.mk "British Lady" "British Lady" "female" "UK"),
      ("Conversational Lady", VoiceInfo.mk "Conversational Lady" "Conversational Lady" "male" "US"),
      ("Classy British Man", VoiceInfo.mk "Classy British Man" "Classy British Man" "male" "UK"),
      ("Friendly Reading Man", VoiceInfo.mk "Friendly Reading Man" "Friendly Reading Man" "male" "US"),
      ("Midwestern Woman", VoiceInfo.mk "Midwestern Woman" "Midwestern Woman" "female" "US"),
      ("Professional Man", VoiceInfo.mk "Professional Man" "Professional Man" "male" "US")
    ] }

def sarvamConfig : TTSConfig :=
  { name := "Sarvam AI",
    api_key_env := "SARVAM_API_KEY",
    base_url := "https://api.sarvam.ai/text-to-speech",
    supported_voices := [
      "en-IN-male", "en-IN-female", "hi-IN-male", "hi-IN-female"
    ],
    max_chars := 5000,
    supports_streaming := false,
    model_name := "bulbul:v2",
    voice_info := [
      ("en-IN-male", VoiceInfo.mk "en-IN-male" "Male (Indian English)" "male" "US"),
      ("en-IN-female", VoiceInfo.mk "en-IN-female" "Female (Indian English)" "female" "US"),
      ("hi-IN-male", VoiceInfo.mk "hi-IN-male" "Male (Hindi)" "male" "US"),
      ("hi-IN-female", VoiceInfo.mk "hi-IN-female" "Female (Hindi)" "female" "US")
    ] }

def sarvamBulbulV3Config : TTSConfig :=
  { name := "Sarvam AI Bulbul v3",
    api_key_env := "SARVAM_API_KEY",
    base_url := "https://api.sarvam.ai/text-to-speech",
    supported_voices := [
      "en-IN-male", "en-IN-female", "hi-IN-male", "hi-IN-female"
    ],
    max_chars := 5000,
    supports_streaming := false,
    model_name := "bulbul:v3",
    voice_info := [
      ("en-IN-male", VoiceInfo.mk "en-IN-male" "Male (Indian English)" "male" "US"),
      ("en-IN-female", VoiceInfo.mk "en-IN-female" "Female (Indian English)" "female" "US"),
      ("hi-IN-male", VoiceInfo.mk "hi-IN-male" "Male (Hindi)" "male" "US"),
      ("hi-IN-female", VoiceInfo.mk "hi-IN-female" "Female (Hindi)" "female" "US")
    ] }

def ttsProviders : List (String × TTSConfig) := [
  ("murf_falcon_oct23", murfFalconOct23Config),
  ("murf_zeroshot", murfZeroshotConfig),
  ("deepgram", deepgramConfig),
  ("deepgram_aura2", deepgramAura2Config),
  ("elevenlabs_flash", elevenlabsFlashConfig),
  ("elevenlabs_v3", elevenlabsV3Config),
  ("openai", openaiConfig),
  ("cartesia_sonic2", cartesiaSonic2Config),
  ("cartesia_turbo", cartesiaTurboConfig),
  ("cartesia_sonic3", cartesiaSonic3Config),
  ("sarvam", sarvamConfig),
  ("sarvam_bulbul_v3", sarvamBulbulV3Config)
]

/-- `config.py` `get_voices_by_gender`: voices of the provider whose
`VoiceInfo.gender` matches and whose id is in `supported_voices`;
`[]` when the provider id is not in the registry. -/
def getVoicesByGender (providerId gender : String) : List String :=
  match lookupStr ttsProviders providerId with
  | some cfg =>
    (cfg.voice_info.filter
      (fun p => p.2.gender == gender && cfg.supported_voices.contains p.1)).map
      (fun p => p.1)
  | none => []

/-- Python `pat in s` substring test, via `String.splitOn`. -/
def strContainsSub (s pat : String) : Bool :=
  (s.splitOn pat).length != 1

/-- `config.py` `get_voices_by_gender_and_locale`: the gender/supported filter
of `get_voices_by_gender`, further restricted when a locale is given — the
source only recognises locale `"US"` (accent `"US"` or an `en-US` marker in
the voice id); any other locale value selects nothing. -/
def getVoicesByGenderAndLocale (providerId gender : String)
    (locale : Option String) : List String :=
  match lookupStr ttsProviders providerId with
  | some cfg =>
    (cfg.voice_info.filter
      (fun p => p.2.gender == gender && cfg.supported_voices.contains p.1 &&
        (match locale with
         | none => true
         | some loc =>
           loc == "US" &&
             (p.2.accent == "US" || strContainsSub p.1 "en-US" ||
               strContainsSub p.1.toLower "en-US")))).map
      (fun p => p.1)
  | none => []

/-- The hardcoded development API key `get_api_key` falls back to for
`murf_zeroshot` (redacted in the source). -/
def murfZeroshotHardcodedKey : String := "REDACTED_API_KEY_REMOVED"

/-- `config.py` `get_api_key`.  The environment is `env : String → Option String`
(`os.getenv`); a set-but-empty variable is falsy in Python, hence treated like
an unset one.  For `murf_zeroshot` the hardcoded development key is returned
instead of raising when the variable is not set. -/
def getApiKey (env : String → Option String) (provider : String) :
    Except String String :=
  match lookupStr ttsProviders provider with
  | none => .error ("Unknown provider: " ++ provider)
  | some cfg =>
    let apiKey := env cfg.api_key_env
    if provider == "murf_zeroshot" then
      match apiKey with
      | some k => if k == "" then .ok murfZeroshotHardcodedKey else .ok k
      | none => .ok murfZeroshotHardcodedKey
    else
      match apiKey with
      | some k =>
        if k == "" then
          .error ("API key not found for " ++ provider ++ ". Please set " ++
            cfg.api_key_env ++ " environment variable.")
        else .ok k
      | none =>
        .error ("API key not found for " ++ provider ++ ". Please set " ++
          cfg.api_key_env ++ " environment variable.")

/-- `config.py` `validate_config`, reduced to the two fields the claims are
about: `configured_count` (number of registry providers whose `get_api_key`
succeeds) and `valid` (`configured_count > 0`). -/
def validateConfig (env : String → Option String) : Nat × Bool :=
  let cnt := ttsProviders.countP (fun p => (getApiKey env p.1).isOk)
  (cnt, decide (0 < cnt))

/-- TTS generation request (`tts_providers.py`, dataclass `TTSRequest`). -/
structure TTSRequest where
  text : String
  voice : String
  provider : String
  model : Option String := none
  speed : ℚ := 1
  format : String := "mp3"
deriving DecidableEq, Repr

/-- Result from TTS generation (`tts_providers.py`, dataclass `TTSResult`).
Audio bytes are a list of byte values.  Of the free-form `metadata` dict only
the `voice_id` entry is modelled (`metaVoiceId`), since it is the one the
verified properties are about. -/
structure TTSResult where
  success : Bool
  audio_data : Option (List Nat)
  latency_ms : ℚ
  file_size_bytes : Nat
  error_message : Option String
  metaVoiceId : Option String := none
deriving DecidableEq, Repr

/-- Outcome of the single network call an adapter issues, as observed by the
adapter code: the request timed out (`asyncio.TimeoutError`), some other
exception was raised, or an HTTP response arrived with a status, a byte body
and a text body.  `elapsedMs` is the wall-clock time `(time.time() -
start_time) * 1000` measured at the point the outcome materialised. -/
inductive NetOutcome where
  | timeout (elapsedMs : ℚ)
  | exfail (msg : String) (elapsedMs : ℚ)
  | httpResponse (status : Nat) (body : List Nat) (textBody : String) (elapsedMs : ℚ)
deriving DecidableEq, Repr

/-- `TTSProvider.validate_request`: text length against `max_chars`, then
membership of the voice in `supported_voices`; both checked before any
network call.  The source interpolates the voice and the voice list into the
second message; the quoting around the voice id is elided here. -/
def validateRequest (cfg : TTSConfig) (req : TTSRequest) : Bool × String :=
  if req.text.length > cfg.max_chars then
    (false, "Text exceeds maximum length of " ++ toString cfg.max_chars ++ " characters")
  else if !(cfg.supported_voices.contains req.voice) then
    (false, "Voice " ++ req.voice ++ " not supported. Available: " ++
      toString cfg.supported_voices)
  else (true, "")

/-- A failed `TTSResult` as built by the adapters. -/
def failResult (latency : ℚ) (msg : String) : TTSResult :=
  { success := false, audio_data := none, latency_ms := latency,
    file_size_bytes := 0, error_message := some msg }

/-- `MurfFalconOct23TTSProvider.generate_speech`: validation, then one POST;
a 200 response returns its body as audio, any other status, a timeout or an
exception produce a failed result.  Header and payload construction does not
affect the returned `TTSResult` and is elided. -/
def murfGenerateSpeech (req : TTSRequest) (outcome : NetOutcome) : TTSResult :=
  let v := validateRequest murfFalconOct23Config req
  if !v.1 then failResult 0 v.2
  else
    match outcome with
    | .timeout t => failResult t "Request timeout"
    | .exfail e t => failResult t ("Error: " ++ e)
    | .httpResponse s body txt t =>
      if s == 200 then
        { success := true, audio_data := some body, latency_ms := t,
          file_size_bytes := body.length, error_message := none }
      else failResult t ("API Error " ++ toString s ++ ": " ++ txt)

/-- `DeepgramTTSProvider.generate_speech` (`tts_providers.py` lines 216–323).
On a 200 response the body is returned as-is with `success=True` and
`file_size_bytes = len(audio_data)` — the source performs no emptiness check
on the body. -/
def deepgramGenerateSpeech (req : TTSRequest) (outcome : NetOutcome) : TTSResult :=
  let v := validateRequest deepgramConfig req
  if !v.1 then failResult 0 v.2
  else
    match outcome with
    | .timeout t => failResult t "Request timeout"
    | .exfail e t => failResult t ("Error: " ++ e)
    | .httpResponse s body txt t =>
      if s == 200 then
        { success := true, audio_data := some body, latency_ms := t,
          file_size_bytes := body.length, error_message := none }
      else failResult t ("API Error " ++ toString s ++ ": " ++ txt)

/-- `OpenAITTSProvider.generate_speech`: same observable shape as the
Deepgram adapter (validation, one POST, 200 → success with raw body). -/
def openaiGenerateSpeech (req : TTSRequest) (outcome : NetOutcome) : TTSResult :=
  let v := validateRequest openaiConfig req
  if !v.1 then failResult 0 v.2
  else
    match outcome with
    | .timeout t => failResult t "Request timeout"
    | .exfail e t => failResult t ("Error: " ++ e)
    | .httpResponse s body txt t =>
      if s == 200 then
        { success := true, audio_data := some body, latency_ms := t,
          file_size_bytes := body.length, error_message := none }
      else failResult t ("API Error " ++ toString s ++ ": " ++ txt)

/-- `ElevenLabsFlashTTSProvider.fallback_voice_id_map` — hardcoded name→id
directory used when the per-account directory has no entry for the name. -/
def elevenFallbackVoiceIdMap : List (String × String) := [
  ("Laura", "FGY2WhTYpPnrIDTdsKH5"),
  ("Jessica", "cgSgspJ2msm6clMCkdW9"),
  ("Liam", "TX3LPaxmHKxFdv7VOQHJ"),
  ("Elizabeth", "MF3mGyEYCl7XYWbV9V6O"),
  ("Shelley", "DWAVQCwqGrmKZMpKIqGa"),
  ("Dan", "TxGEqnHWrfWFTfGW9XjX"),
  ("Nathaniel", "N2lVS1w4EtoT3dr4eOWO")]

/-- Python truthiness of an optional string: `None` and `""` are falsy. -/
def pyTruthyS (o : Option String) : Bool :=
  match o with
  | none => false
  | some s => !(s == "")

/-- The name→id resolution step of `ElevenLabsFlashTTSProvider.generate_speech`:
`voice_id = self.voice_id_map.get(request.voice)`, falling back to
`fallback_voice_id_map` when that is falsy (absent or empty), and `none` when
both lookups are falsy. -/
def elevenResolveVoiceId (vmap : List (String × String)) (name : String) :
    Option String :=
  let v1 := lookupStr vmap name
  let vid := if pyTruthyS v1 then v1 else lookupStr elevenFallbackVoiceIdMap name
  if pyTruthyS vid then vid else none

/-- `ElevenLabsFlashTTSProvider.generate_speech`.

`vmap` is `self.voice_id_map`, the per-account name→id directory fetched once
per process (its fetch is modelled by taking the post-fetch map as a
parameter).  `voicesFetch` models the voices listing issued inside the
404-recovery branch: `some entries` for a 200 listing parsed into
(name, voice_id) pairs, `none` for any failure; `retry` models the retried
synthesis call of that branch.  Flow of the source: validation (twice — the
supported-voices check is repeated verbatim), then name→id resolution trying
`voice_id_map` then `fallback_voice_id_map` and failing if both miss, then
the POST: 200 with a non-empty body succeeds, 200 with an empty body fails
with `Empty audio response from API`, 404 attempts re-resolution by name and
one retry, anything else fails.  Messages that interpolate the voice name
are reproduced without the surrounding quoting. -/
def elevenLabsFlashGenerateSpeech (vmap : List (String × String))
    (req : TTSRequest) (outcome : NetOutcome)
    (voicesFetch : Option (List (String × String))) (retry : NetOutcome) :
    TTSResult :=
  let v := validateRequest elevenlabsFlashConfig req
  if !v.1 then failResult 0 v.2
  else if !(elevenlabsFlashConfig.supported_voices.contains req.voice) then
    { failResult 0 ("Voice " ++ req.voice ++ " not in supported voices: " ++
        toString elevenlabsFlashConfig.supported_voices) with
      metaVoiceId := none }
  else
    match elevenResolveVoiceId vmap req.voice with
    | none =>
      failResult 0 ("Voice " ++ req.voice ++
        " not found in your ElevenLabs account. Available voices: " ++
        toString (vmap.map (fun p => p.1)))
    | some voiceId =>
      let notFound404 := fun (t : ℚ) =>
        { failResult t ("Voice " ++ req.voice ++
            " not found in your account. Voice ID " ++ voiceId ++
            " does not exist. Please check your ElevenLabs account has this voice available.") with
          metaVoiceId := some voiceId }
      match outcome with
      | .timeout t =>
        failResult t ("Request timeout (Voice: " ++ req.voice ++ ")")
      | .exfail e t =>
        failResult t ("Error: " ++ e ++ " (Voice: " ++ req.voice ++
          ", Voice ID: " ++ voiceId ++ ")")
      | .httpResponse s body txt t =>
        if s == 200 then
          if body.length == 0 then
            { failResult t "Empty audio response from API" with
              metaVoiceId := some voiceId }
          else
            { success := true, audio_data := some body, latency_ms := t,
              file_size_bytes := body.length, error_message := none,
              metaVoiceId := some voiceId }
        else if s == 404 then
          match voicesFetch with
          | some entries =>
            (match lookupStr entries req.voice with
             | some correctId =>
               if correctId == "" then notFound404 t
               else
                 (match retry with
                  | .httpResponse 200 rbody _ rt =>
                    if rbody.length > 0 then
                      { success := true, audio_data := some rbody,
                        latency_ms := rt, file_size_bytes := rbody.length,
                        error_message := none, metaVoiceId := some correctId }
                    else notFound404 t
                  | _ => notFound404 t)
             | none => notFound404 t)
          | none => notFound404 t
        else
          failResult t ("API Error " ++ toString s ++ ": " ++ txt ++
            " (Voice: " ++ req.voice ++ ", Voice ID: " ++ voiceId ++ ")")

/-- `CartesiaTTSProvider.voice_id_map` — hardcoded friendly-name→id directory. -/
def cartesiaVoiceIdMap : List (String × String) := [
  ("British Lady", "79a125e8-cd45-4c13-8a67-188112f4dd22"),
  ("Conversational Lady", "a0e99841-438c-4a64-b679-ae501e7d6091"),
  ("Classy British Man", "63ff761f-c1e8-414b-b969-d1833d1c870c"),
  ("Friendly Reading Man", "5619d38c-cf51-4d8e-9575-48f61a280413"),
  ("Midwestern Woman", "a3520a8f-226a-428d-9fcd-b0a4711a6829"),
  ("Professional Man", "41534e16-2966-4c6b-9670-111411def906"),
  ("Newsman", "daf747c6-6bc2-45c9-b3e6-d99d48c6697e")]

/-- `CartesiaTTSProvider.generate_speech` (shared by the Sonic 2.0, Turbo and
Sonic 3 providers; they differ only in `model_id`, which does not affect the
modelled fields).  Voice resolution is
`self.voice_id_map.get(request.voice, self.voice_id_map["Conversational Lady"])`
— a lookup with a hardcoded default. -/
def cartesiaGenerateSpeech (req : TTSRequest) (outcome : NetOutcome) : TTSResult :=
  let v := validateRequest cartesiaSonic2Config req
  if !v.1 then failResult 0 v.2
  else
    let voiceId := (lookupStr cartesiaVoiceIdMap req.voice).getD
      ((lookupStr cartesiaVoiceIdMap "Conversational Lady").getD "")
    match outcome with
    | .timeout t => failResult t "Request timeout"
    | .exfail e t => failResult t ("Error: " ++ e)
    | .httpResponse s body txt t =>
      if s == 200 then
        { success := true, audio_data := some body, latency_ms := t,
          file_size_bytes := body.length, error_message := none,
          metaVoiceId := some voiceId }
      else failResult t ("API Error " ++ toString s ++ ": " ++ txt)

/-- A constructed provider object: `TTSProvider.__init__` stores the provider
id and the result of `get_api_key` (which may raise). -/
structure ProviderInstance where
  providerId : String
  apiKey : String
deriving DecidableEq, Repr

/-- Constructing a provider instance: `TTSProvider.__init__` looks the config
up and calls `get_api_key`, whose `ValueError` propagates. -/
def mkProviderInstance (env : String → Option String) (pid : String) :
    Except String ProviderInstance :=
  match getApiKey env pid with
  | .ok k => .ok (ProviderInstance.mk pid k)
  | .error e => .error e

/-- `TTSProviderFactory.create_provider`: a string-id dispatch over exactly
ten provider ids; every other id — including `murf_zeroshot` and
`sarvam_bulbul_v3`, which are in the registry — raises `ValueError`. -/
def createProvider (env : String → Option String) (pid : String) :
    Except String ProviderInstance :=
  if pid == "murf_falcon_oct23" then mkProviderInstance env "murf_falcon_oct23"
  else if pid == "deepgram" then mkProviderInstance env "deepgram"
  else if pid == "deepgram_aura2" then mkProviderInstance env "deepgram_aura2"
  else if pid == "elevenlabs_flash" then mkProviderInstance env "elevenlabs_flash"
  else if pid == "elevenlabs_v3" then mkProviderInstance env "elevenlabs_v3"
  else if pid == "openai" then mkProviderInstance env "openai"
  else if pid == "cartesia_sonic2" then mkProviderInstance env "cartesia_sonic2"
  else if pid == "cartesia_turbo" then mkProviderInstance env "cartesia_turbo"
  else if pid == "cartesia_sonic3" then mkProviderInstance env "cartesia_sonic3"
  else if pid == "sarvam" then mkProviderInstance env "sarvam"
  else .error ("Unknown provider: " ++ pid)

/-- `TTSProviderFactory.get_available_providers`: the registry keys. -/
def getAvailableProviders : List String := ttsProviders.map (fun p => p.1)

/-- `TTSProviderFactory.create_all_providers`: loops over
`get_available_providers`, keeping (in order) the ids whose construction
succeeds and dropping the ones that raise. -/
def createAllProviders (env : String → Option String) :
    List (String × ProviderInstance) :=
  getAvailableProviders.filterMap (fun pid =>
    match createProvider env pid with
    | .ok p => some (pid, p)
    | .error _ => none)

noncomputable section

/-- One pairwise ELO update as implemented in the session-ELO replay loop of
`display_final_results_2` and in the vote replay of `leaderboard_page`
(`app.py`): `Ew = 1/(1+10^((Rl-Rw)/400))`, `El = 1/(1+10^((Rw-Rl)/400))`,
`K = 32`, winner gains `K*(1-Ew)`, loser gains `K*(0-El)`.  The float
arithmetic of the source is modelled over the reals. -/
def eloUpdatePair (winnerRating loserRating : ℝ) : ℝ × ℝ :=
  let expectedWinner := 1 / (1 + (10 : ℝ) ^ ((loserRating - winnerRating) / 400))
  let expectedLoser := 1 / (1 + (10 : ℝ) ^ ((winnerRating - loserRating) / 400))
  let kFactor : ℝ := 32
  (winnerRating + kFactor * (1 - expectedWinner),
   loserRating + kFactor * (0 - expectedLoser))

/-- Python dict assignment `d[k] = v` on an association list: replace the
binding if the key is present, append otherwise. -/
def updateAssoc (l : List (String × ℝ)) (k : String) (v : ℝ) :
    List (String × ℝ) :=
  if (lookupStr l k).isSome then
    l.map (fun p => if p.1 == k then (p.1, v) else p)
  else l ++ [(k, v)]

/-- The vote replay of `leaderboard_page`: fold the `(winner, loser)` votes
over the rating dict, reading absent providers at the default 1000
(`test_session_elo.get(x, 1000.0)`) and applying `eloUpdatePair`. -/
def replayElo (init : List (String × ℝ)) (votes : List (String × String)) :
    List (String × ℝ) :=
  votes.foldl (fun elo wl =>
    let winnerRating := (lookupStr elo wl.1).getD 1000
    let loserRating := (lookupStr elo wl.2).getD 1000
    let upd := eloUpdatePair winnerRating loserRating
    updateAssoc (updateAssoc elo wl.1 upd.1) wl.2 upd.2) init

/-- Python `round()` on a float: round half to even. -/
def pyRound (x : ℝ) : ℤ :=
  let f := x - ⌊x⌋
  if f < 1 / 2 then ⌊x⌋
  else if 1 / 2 < f then ⌊x⌋ + 1
  else if 2 ∣ ⌊x⌋ then ⌊x⌋ else ⌊x⌋ + 1

end

/-- One row of the leaderboard table built by `leaderboard_page` (the
`Provider`/`Model` display strings are identified with the provider id; the
`Win Rate` cell keeps its numeric value, its string formatting is display
only, as is the `#` prefix of `Rank`). -/
structure LeaderRow where
  provider : String
  elo : ℤ
  samples : Nat
  wins : Nat
  losses : Nat
  winRate : ℚ
  rank : Nat
deriving DecidableEq, Repr

/-- `win_rate = (wins / total * 100) if total > 0 else 0` (`leaderboard_page`). -/
def winRateOf (wins total : Nat) : ℚ :=
  if 0 < total then (wins : ℚ) / (total : ℚ) * 100 else 0

/-- The `display_data` construction of `leaderboard_page`: one row per
provider, in iteration order, with `Rank` initialised to 0. -/
def buildRows (providers : List String) (eloOf : String → ℤ)
    (winsOf lossesOf : String → Nat) : List LeaderRow :=
  providers.map (fun p =>
    let w := winsOf p
    let l := lossesOf p
    let tot := w + l
    { provider := p, elo := eloOf p, samples := tot, wins := w, losses := l,
      winRate := winRateOf w tot, rank := 0 })

/-- Rank assignment of `leaderboard_page`: after sorting, row `i` (0-based)
gets rank `i + 1` — purely positional. -/
def assignRanks : Nat → List LeaderRow → List LeaderRow
  | _, [] => []
  | i, r :: rs => { r with rank := i + 1 } :: assignRanks (i + 1) rs

/-- `display_data.sort(key=lambda x: x["ELO"], reverse=True)` followed by the
rank loop.  Python's sort is stable; a stable descending sort is insertion
sort with the reflexive relation `b.elo ≤ a.elo`. -/
def sortAndRank (rows : List LeaderRow) : List LeaderRow :=
  assignRanks 0 (List.insertionSort (fun a b => b.elo ≤ a.elo) rows)

/-- The full leaderboard computation of `leaderboard_page`: wins/losses are
counted from the vote list, every provider starts at ELO 1000, the votes are
replayed through `eloUpdatePair`, ratings are rounded for display, and the
rows are sorted and ranked. -/
noncomputable def leaderboardRows (providers : List String)
    (votes : List (String × String)) : List LeaderRow :=
  let winsOf := fun p => (votes.filter (fun wl => wl.1 == p)).length
  let lossesOf := fun p => (votes.filter (fun wl => wl.2 == p)).length
  let initElo := providers.map (fun p => (p, (1000 : ℝ)))
  let finalElo := replayElo initElo votes
  sortAndRank (buildRows providers
    (fun p => pyRound ((lookupStr finalElo p).getD 1000)) winsOf lossesOf)

/-- The Murf-voice cycling of `generate_next_comparison` (`app.py`, the
branch taken when a non-empty list of Murf voices was selected):
`voice_index = comparison_index % len(selected)`, with inline fallbacks when
the cycled voice is no longer in `supported_voices` — first to the valid
subset of the selected voices (cycled the same way), then to the first
gender-matching voice of the catalogue; when even that is empty the invalid
cycled voice is kept. -/
def murfVoiceCycle (selected supported : List String)
    (voiceInfo : List (String × VoiceInfo)) (genderFilter : String)
    (comparisonIndex : Nat) : Option String :=
  match selected with
  | [] => none
  | _ :: _ =>
    let voiceIndex := comparisonIndex % selected.length
    let murfVoice := selected.getD voiceIndex ""
    if supported.contains murfVoice then some murfVoice
    else
      let validVoiceIds := selected.filter (fun v => supported.contains v)
      match validVoiceIds with
      | _ :: _ => some (validVoiceIds.getD (comparisonIndex % validVoiceIds.length) "")
      | [] =>
        match voiceInfo.filter (fun p => p.2.gender == genderFilter) with
        | f :: _ => some f.1
        | [] => some murfVoice

/-- The competitor-voice selection of `generate_next_comparison` (`app.py`):
if exactly one gender-matching candidate remains it is used, otherwise the
voice is `random.choice(competitor_voices)`.  The random draw is modelled by
the oracle `randomPick`: `random.choice` returns the element at the drawn
index. -/
def competitorVoicePick (candidates : List String) (randomPick : Nat) :
    Option String :=
  match candidates with
  | [] => none
  | [v] => some v
  | _ :: _ :: _ => candidates.get? (randomPick % candidates.length)

/-- C1: a single pairwise ELO update, as implemented in the session-ELO
replay loop, preserves the sum of the two ratings exactly (over the reals;
the float computation of the source realises this up to rounding). -/
theorem elo_update_zero_sum (rWin rLose : ℝ) :
    (eloUpdatePair rWin rLose).1 + (eloUpdatePair rWin rLose).2 = rWin + rLose := by
  have hpos : 0 < (10 : ℝ) ^ ((rLose - rWin) / 400) :=
    Real.rpow_pos_of_pos (by norm_num) _
  have hneg : (10 : ℝ) ^ ((rWin - rLose) / 400) =
      ((10 : ℝ) ^ ((rLose - rWin) / 400))⁻¹ := by
    rw [← Real.rpow_neg (by norm_num : (0 : ℝ) ≤ 10)]
    congr 1
    ring
  have h1 : (1 : ℝ) + (10 : ℝ) ^ ((rLose - rWin) / 400) ≠ 0 := by positivity
  have h2 : (1 : ℝ) + ((10 : ℝ) ^ ((rLose - rWin) / 400))⁻¹ ≠ 0 := by positivity
  simp only [eloUpdatePair]
  rw [hneg]
  field_simp
  ring

/-- C7: when winner and loser enter the update with equal ratings, the
expected scores are exactly 1/2, so with `K = 32` the winner gains exactly 16
and the loser loses exactly 16. -/
theorem elo_equal_ratings_update (a b : ℝ) (h : a = b) :
    eloUpdatePair a b = (a + 16, b - 16) := by
  subst h
  simp only [eloUpdatePair, sub_self, zero_div, Real.rpow_zero]
  norm_num
  ring

/-- C7 witness: Provider A (rating 1000) loses to Provider B (rating 1000):
the winner B moves to 1016, the loser A to 984. -/
theorem elo_equal_ratings_update_witness :
    eloUpdatePair 1000 1000 = (1016, 984) := by
  rw [elo_equal_ratings_update 1000 1000 rfl]
  norm_num

/-- C2: the voice-selection filters only ever return voice ids whose
catalogue entry has the requested gender and which are members of the
provider's `supported_voices`; and when the provider's catalogue has no
supported voice of the requested gender, both filters return the empty list
(the definitive no-matching-voice outcome) — never a voice of another
gender. -/
theorem voice_selector_gender_correct (pid gender : String) (locale : Option String) :
    (∀ v ∈ getVoicesByGender pid gender, ∃ cfg,
        lookupStr ttsProviders pid = some cfg ∧
        ∃ info, (v, info) ∈ cfg.voice_info ∧ info.gender = gender ∧
          v ∈ cfg.supported_voices) ∧
    (∀ v ∈ getVoicesByGenderAndLocale pid gender locale, ∃ cfg,
        lookupStr ttsProviders pid = some cfg ∧
        ∃ info, (v, info) ∈ cfg.voice_info ∧ info.gender = gender ∧
          v ∈ cfg.supported_voices) ∧
    (∀ cfg, lookupStr ttsProviders pid = some cfg →
      (∀ p ∈ cfg.voice_info, p.2.gender = gender → p.1 ∉ cfg.supported_voices) →
      getVoicesByGender pid gender = [] ∧
        getVoicesByGenderAndLocale pid gender locale = []) := by
  refine ⟨?_, ?_, ?_⟩
  · intro v hv
    cases hcfg : lookupStr ttsProviders pid with
    | none => simp [getVoicesByGender, hcfg] at hv
    | some cfg =>
      refine ⟨cfg, rfl, ?_⟩
      simp only [getVoicesByGender, hcfg, List.mem_map, List.mem_filter] at hv
      obtain ⟨⟨k, info⟩, ⟨hmem, hcond⟩, hfst⟩ := hv
      simp only [Bool.and_eq_true, beq_iff_eq] at hcond
      subst hfst
      exact ⟨info, hmem, hcond.1, by simpa using hcond.2⟩
  · intro v hv
    cases hcfg : lookupStr ttsProviders pid with
    | none => simp [getVoicesByGenderAndLocale, hcfg] at hv
    | some cfg =>
      refine ⟨cfg, rfl, ?_⟩
      simp only [getVoicesByGenderAndLocale, hcfg, List.mem_map, List.mem_filter] at hv
      obtain ⟨⟨k, info⟩, ⟨hmem, hcond⟩, hfst⟩ := hv
      simp only [Bool.and_eq_true, beq_iff_eq] at hcond
      subst hfst
      exact ⟨info, hmem, hcond.1.1, by simpa using hcond.1.2⟩
  · intro cfg hcfg hno
    constructor
    · simp only [getVoicesByGender, hcfg, List.map_eq_nil_iff, List.filter_eq_nil_iff]
      intro p hp
      simp only [Bool.and_eq_true, beq_iff_eq, not_and]
      intro hg hc
      exact hno p hp hg (by simpa using hc)
    · simp only [getVoicesByGenderAndLocale, hcfg, List.map_eq_nil_iff,
        List.filter_eq_nil_iff]
      intro p hp
      simp only [Bool.and_eq_true, beq_iff_eq, not_and]
      intro hg _
      exact hno p hp hg.1 (by simpa using hg.2)

/-- C2 witness: for the Deepgram provider and gender `male`, the voice
`aura-orion-en` is returned and indeed carries a male catalogue entry inside
`supported_voices`. -/
theorem voice_selector_gender_correct_witness :
    ∃ cfg, lookupStr ttsProviders "deepgram" = some cfg ∧
      ∃ info, ("aura-orion-en", info) ∈ cfg.voice_info ∧ info.gender = "male" ∧
        "aura-orion-en" ∈ cfg.supported_voices :=
  (voice_selector_gender_correct "deepgram" "male" none).1 "aura-orion-en" (by decide)

/-- C3: the claimed invariant `success = true → file_size_bytes > 0 ∧
audio_data non-empty` is violated by the Deepgram adapter: a 200-status
response whose body is empty yields `success = true` with
`file_size_bytes = 0` and empty `audio_data` (the source stores
`len(audio_data)` without any emptiness check; the ElevenLabs Flash adapter
by contrast rejects an empty 200 body with `Empty audio response from
API`). -/
theorem deepgram_success_with_empty_body :
    (deepgramGenerateSpeech
        (TTSRequest.mk "Hello" "aura-asteria-en" "deepgram" none 1 "mp3")
        (NetOutcome.httpResponse 200 [] "" 120)).success = true ∧
    (deepgramGenerateSpeech
        (TTSRequest.mk "Hello" "aura-asteria-en" "deepgram" none 1 "mp3")
        (NetOutcome.httpResponse 200 [] "" 120)).file_size_bytes = 0 ∧
    (deepgramGenerateSpeech
        (TTSRequest.mk "Hello" "aura-asteria-en" "deepgram" none 1 "mp3")
        (NetOutcome.httpResponse 200 [] "" 120)).audio_data = some [] := by
  decide

/-- C4: the Murf and OpenAI adapters are total functions of the network
outcome — no exception escapes `generate_speech` — and for a request that
passes validation every failure outcome (timeout, exception, non-200
response) is encoded as `success = false` with a categorised error message
and the elapsed time measured at the point of failure. -/
theorem generate_speech_no_throw (reqM reqO : TTSRequest) (t : ℚ) (e : String)
    (s : Nat) (body : List Nat) (txt : String)
    (hm : (validateRequest murfFalconOct23Config reqM).1 = true)
    (ho : (validateRequest openaiConfig reqO).1 = true)
    (hs : s ≠ 200) :
    (murfGenerateSpeech reqM (NetOutcome.timeout t) =
      failResult t "Request timeout") ∧
    (murfGenerateSpeech reqM (NetOutcome.exfail e t) =
      failResult t ("Error: " ++ e)) ∧
    (murfGenerateSpeech reqM (NetOutcome.httpResponse s body txt t) =
      failResult t ("API Error " ++ toString s ++ ": " ++ txt)) ∧
    (openaiGenerateSpeech reqO (NetOutcome.timeout t) =
      failResult t "Request timeout") ∧
    (openaiGenerateSpeech reqO (NetOutcome.exfail e t) =
      failResult t ("Error: " ++ e)) ∧
    (openaiGenerateSpeech reqO (NetOutcome.httpResponse s body txt t) =
      failResult t ("API Error " ++ toString s ++ ": " ++ txt)) := by
  have hs' : (s == 200) = false := by simpa using hs
  refine ⟨?_, ?_, ?_, ?_, ?_, ?_⟩ <;>
    simp [murfGenerateSpeech, openaiGenerateSpeech, hm, ho, hs']

/-- C4 witness: concrete valid requests for both adapters, with a timeout,
an exception and a 500 response each mapped to the corresponding failed
result. -/
theorem generate_speech_no_throw_witness :
    (murfGenerateSpeech
        (TTSRequest.mk "Hi" "en-US-natalie" "murf_falcon_oct23" none 1 "mp3")
        (NetOutcome.timeout 30000) = failResult 30000 "Request timeout") ∧
    (openaiGenerateSpeech
        (TTSRequest.mk "Hi" "alloy" "openai" none 1 "mp3")
        (NetOutcome.httpResponse 500 [] "server error" 30000) =
      failResult 30000 ("API Error " ++ toString 500 ++ ": " ++ "server error")) := by
  have h := generate_speech_no_throw
    (TTSRequest.mk "Hi" "en-US-natalie" "murf_falcon_oct23" none 1 "mp3")
    (TTSRequest.mk "Hi" "alloy" "openai" none 1 "mp3")
    30000 "boom" 500 [] "server error" (by decide) (by decide) (by decide)
  refine ⟨h.1, ?_⟩
  have h6 := h.2.2.2.2.2
  simpa using h6

/-- A resolved ElevenLabs voice id always comes from one of the two
directories, keyed by the requested name. -/
theorem elevenResolveVoiceId_some (vmap : List (String × String)) (name id : String)
    (h : elevenResolveVoiceId vmap name = some id) :
    lookupStr vmap name = some id ∨
      lookupStr elevenFallbackVoiceIdMap name = some id := by
  simp only [elevenResolveVoiceId] at h
  by_cases h1 : pyTruthyS (lookupStr vmap name) = true
  · rw [if_pos h1] at h
    left
    simpa [h1] using h
  · rw [if_neg h1] at h
    by_cases h2 : pyTruthyS (lookupStr elevenFallbackVoiceIdMap name) = true
    · right
      simpa [h2] using h
    · simp [h2] at h

/-- When neither directory has the name, resolution fails. -/
theorem elevenResolveVoiceId_none (vmap : List (String × String)) (name : String)
    (h1 : lookupStr vmap name = none)
    (h2 : lookupStr elevenFallbackVoiceIdMap name = none) :
    elevenResolveVoiceId vmap name = none := by
  simp [elevenResolveVoiceId, h1, h2, pyTruthyS]

/-- A request that passes `validate_request` has its voice in
`supported_voices`. -/
theorem validateRequest_true_mem (cfg : TTSConfig) (req : TTSRequest)
    (h : (validateRequest cfg req).1 = true) :
    req.voice ∈ cfg.supported_voices := by
  unfold validateRequest at h
  split at h
  · simp at h
  · split at h
    · simp at h
    · next h2 => simpa using h2

/-- Every supported Cartesia voice name has an entry in the hardcoded
name→id directory (so the `.get` default of the source is unreachable for a
validated request). -/
theorem cartesia_supported_resolves :
    ∀ v ∈ cartesiaSonic2Config.supported_voices,
      (lookupStr cartesiaVoiceIdMap v).isSome = true := by decide

/-- C6: adapters that resolve a friendly voice name to a vendor-internal id
never silently substitute an unrelated voice: when the ElevenLabs Flash
name→id directories cannot map the requested name, `generate_speech` returns
a failed result; any successful ElevenLabs result used an id obtained from
one of its directories under exactly the requested name; and a successful
Cartesia result always uses the directory entry of the requested name (the
hardcoded `.get` default is unreachable because validation already rejected
any name outside the directory, in which case the result is a failure). -/
theorem voice_resolution_no_silent_substitution
    (vmap : List (String × String)) (req : TTSRequest) (outcome : NetOutcome)
    (voicesFetch : Option (List (String × String))) (retry : NetOutcome) :
    (lookupStr vmap req.voice = none →
      lookupStr elevenFallbackVoiceIdMap req.voice = none →
      (elevenLabsFlashGenerateSpeech vmap req outcome voicesFetch retry).success = false) ∧
    ((elevenLabsFlashGenerateSpeech vmap req outcome voicesFetch retry).success = true →
      ∃ id, (elevenLabsFlashGenerateSpeech vmap req outcome voicesFetch retry).metaVoiceId =
          some id ∧
        (lookupStr vmap req.voice = some id ∨
          lookupStr elevenFallbackVoiceIdMap req.voice = some id ∨
          ∃ entries, voicesFetch = some entries ∧
            lookupStr entries req.voice = some id)) ∧
    ((cartesiaGenerateSpeech req outcome).success = true →
      (cartesiaGenerateSpeech req outcome).metaVoiceId =
        lookupStr cartesiaVoiceIdMap req.voice) ∧
    (lookupStr cartesiaVoiceIdMap req.voice = none →
      (cartesiaGenerateSpeech req outcome).success = false) := by
  refine ⟨?_, ?_, ?_, ?_⟩
  · intro h1 h2
    have hres := elevenResolveVoiceId_none vmap req.voice h1 h2
    cases hv : (validateRequest elevenlabsFlashConfig req).1 <;>
      by_cases hc : req.voice ∈ elevenlabsFlashConfig.supported_voices <;>
        simp [elevenLabsFlashGenerateSpeech, hv, hc, hres, failResult]
  · intro hsucc
    cases hv : (validateRequest elevenlabsFlashConfig req).1
    · simp [elevenLabsFlashGenerateSpeech, hv, failResult] at hsucc
    by_cases hc : req.voice ∈ elevenlabsFlashConfig.supported_voices
    case neg => simp [elevenLabsFlashGenerateSpeech, hv, hc, failResult] at hsucc
    cases hres : elevenResolveVoiceId vmap req.voice with
    | none => simp [elevenLabsFlashGenerateSpeech, hv, hc, hres, failResult] at hsucc
    | some voiceId =>
      have hprov := elevenResolveVoiceId_some vmap req.voice voiceId hres
      cases outcome with
      | timeout t =>
        simp [elevenLabsFlashGenerateSpeech, hv, hc, hres, failResult] at hsucc
      | exfail e t =>
        simp [elevenLabsFlashGenerateSpeech, hv, hc, hres, failResult] at hsucc
      | httpResponse s body txt t =>
        by_cases hs200 : s = 200
        · subst hs200
          by_cases hb : body.length = 0
          · simp [elevenLabsFlashGenerateSpeech, hv, hc, hres, hb, failResult] at hsucc
          · refine ⟨voiceId, ?_, ?_⟩
            · simp [elevenLabsFlashGenerateSpeech, hv, hc, hres, hb]
            · rcases hprov with h | h
              · exact Or.inl h
              · exact Or.inr (Or.inl h)
        · have hs200' : (s == 200) = false := by simpa using hs200
          by_cases hs404 : s = 404
          · subst hs404
            cases voicesFetch with
            | none =>
              simp [elevenLabsFlashGenerateSpeech, hv, hc, hres, failResult] at hsucc
            | some entries =>
              cases hfind : lookupStr entries req.voice with
              | none =>
                simp [elevenLabsFlashGenerateSpeech, hv, hc, hres, hfind,
                  failResult] at hsucc
              | some correctId =>
                by_cases hcid : correctId = ""
                · simp [elevenLabsFlashGenerateSpeech, hv, hc, hres, hfind, hcid,
                    failResult] at hsucc
                · have hcid' : (correctId == "") = false := by simpa using hcid
                  cases retry with
                  | timeout rt =>
                    simp [elevenLabsFlashGenerateSpeech, hv, hc, hres, hfind,
                      hcid', failResult] at hsucc
                  | exfail re rt =>
                    simp [elevenLabsFlashGenerateSpeech, hv, hc, hres, hfind,
                      hcid', failResult] at hsucc
                  | httpResponse rs rbody rtxt rt =>
                    by_cases hrs : rs = 200
                    · subst hrs
                      by_cases hrb : rbody.length = 0
                      · simp [elevenLabsFlashGenerateSpeech, hv, hc, hres, hfind,
                          hcid', hrb, failResult] at hsucc
                      · refine ⟨correctId, ?_, Or.inr (Or.inr ⟨entries, rfl, hfind⟩)⟩
                        simp [elevenLabsFlashGenerateSpeech, hv, hc, hres, hfind,
                          hcid', hrb, Nat.pos_of_ne_zero hrb]
                    · simp [elevenLabsFlashGenerateSpeech, hv, hc, hres, hfind,
                        hcid', hrs, failResult] at hsucc
          · have hs404' : (s == 404) = false := by simpa using hs404
            simp [elevenLabsFlashGenerateSpeech, hv, hc, hres, hs200', hs404',
              failResult] at hsucc
  · intro hsucc
    cases hv : (validateRequest cartesiaSonic2Config req).1
    · cases outcome <;>
        simp [cartesiaGenerateSpeech, hv, failResult] at hsucc
    · have hmem := validateRequest_true_mem _ _ hv
      have hsome := cartesia_supported_resolves _ hmem
      obtain ⟨id, hid⟩ := Option.isSome_iff_exists.mp hsome
      cases outcome with
      | timeout t => simp [cartesiaGenerateSpeech, hv, failResult] at hsucc
      | exfail e t => simp [cartesiaGenerateSpeech, hv, failResult] at hsucc
      | httpResponse s body txt t =>
        by_cases hs : s = 200
        · subst hs
          simp [cartesiaGenerateSpeech, hv, hid]
        · have hs' : (s == 200) = false := by simpa using hs
          simp [cartesiaGenerateSpeech, hv, hs', failResult] at hsucc
  · intro hnone
    cases hv : (validateRequest cartesiaSonic2Config req).1
    · cases outcome <;>
        simp [cartesiaGenerateSpeech, hv, failResult]
    · exfalso
      have hmem := validateRequest_true_mem _ _ hv
      have hsome := cartesia_supported_resolves _ hmem
      rw [hnone] at hsome
      simp at hsome

/-- C6 witness: the supported ElevenLabs voice `Jarnathan` is missing from
both name→id directories (here the account directory is empty), so
`generate_speech` fails rather than substituting another voice. -/
theorem voice_resolution_no_silent_substitution_witness :
    (elevenLabsFlashGenerateSpeech []
        (TTSRequest.mk "Hello" "Jarnathan" "elevenlabs_flash" none 1 "mp3")
        (NetOutcome.timeout 10) none (NetOutcome.timeout 10)).success = false :=
  (voice_resolution_no_silent_substitution []
      (TTSRequest.mk "Hello" "Jarnathan" "elevenlabs_flash" none 1 "mp3")
      (NetOutcome.timeout 10) none (NetOutcome.timeout 10)).1 rfl (by decide)

/-- C5 (amended): the Murf side of a repeated blind-test comparison cycles
deterministically — when the selected voices are all still supported the
chosen voice is `selected[comparison_index % len(selected)]` — but the
competitor side is only deterministic for a single candidate: with more
than one gender-matching candidate the voice is `random.choice(...)`, i.e.
it is the candidate at the randomly drawn index, dependent on the random
draw and not on the call index. -/
theorem blind_test_voice_selection (selected supported : List String)
    (voiceInfo : List (String × VoiceInfo)) (g : String) (ci : Nat)
    (hne : selected ≠ [])
    (hval : ∀ v ∈ selected, supported.contains v = true) :
    murfVoiceCycle selected supported voiceInfo g ci =
      selected.get? (ci % selected.length) ∧
    (∀ (cands : List String) (r : Nat), 1 < cands.length →
      competitorVoicePick cands r = cands.get? (r % cands.length)) ∧
    (∀ (cands : List String) (r : Nat), cands.length = 1 →
      competitorVoicePick cands r = cands.get? 0) := by
  refine ⟨?_, ?_, ?_⟩
  · match selected, hne with
    | v :: vs, _ =>
      have hlt : ci % (v :: vs).length < (v :: vs).length :=
        Nat.mod_lt _ (by simp)
      have hget : (v :: vs).getD (ci % (v :: vs).length) "" =
          (v :: vs)[ci % (v :: vs).length] :=
        List.getD_eq_getElem _ _ hlt
      have hcont := hval _ (List.getElem_mem hlt)
      simp only [murfVoiceCycle, hget, hcont, if_true]
      simp [List.get?_eq_get hlt]
  · intro cands r hlen
    match cands, hlen with
    | a :: b :: rest, _ => rfl
  · intro cands r hlen
    match cands, hlen with
    | [a], _ => rfl

/-- C5 counterexample: with the same candidate list (and whatever the call
index is), two different random draws select two different voices, so the
competitor-voice selection is drawn from a random source and is not
`candidates[call_index % len(candidates)]` for every run. -/
theorem competitor_voice_random_dependence :
    competitorVoicePick ["aura-2-orion-en", "aura-2-apollo-en"] 0 =
      some "aura-2-orion-en" ∧
    competitorVoicePick ["aura-2-orion-en", "aura-2-apollo-en"] 1 =
      some "aura-2-apollo-en" ∧
    competitorVoicePick ["aura-2-orion-en", "aura-2-apollo-en"] 0 ≠
      competitorVoicePick ["aura-2-orion-en", "aura-2-apollo-en"] 1 := by
  decide

/-- C5 witness: cycling two still-supported selected Murf voices at
comparison index 3 picks the voice at index `3 % 2 = 1`. -/
theorem blind_test_voice_selection_witness :
    murfVoiceCycle ["en-US-natalie", "en-US-ken"]
        murfFalconOct23Config.supported_voices
        murfFalconOct23Config.voice_info "female" 3 = some "en-US-ken" := by
  have h := (blind_test_voice_selection ["en-US-natalie", "en-US-ken"]
    murfFalconOct23Config.supported_voices murfFalconOct23Config.voice_info
    "female" 3 (by decide) (by decide)).1
  rw [h]
  rfl

instance : IsTotal LeaderRow (fun a b => b.elo ≤ a.elo) :=
  ⟨fun a b => le_total b.elo a.elo⟩

instance : IsTrans LeaderRow (fun a b => b.elo ≤ a.elo) :=
  ⟨fun _ _ _ h1 h2 => le_trans h2 h1⟩

/-- `assignRanks` gives row `k` (0-based) of the sorted list the rank
`i + k + 1`. -/
theorem assignRanks_rank_get :
    ∀ (l : List LeaderRow) (i k : Nat) (h : k < (assignRanks i l).length),
      ((assignRanks i l).get ⟨k, h⟩).rank = i + k + 1
  | r :: rs, i, 0, _ => rfl
  | r :: rs, i, k + 1, h => by
    have h' : k < (assignRanks (i + 1) rs).length := by
      simpa [assignRanks] using h
    have ih := assignRanks_rank_get rs (i + 1) k h'
    show ((assignRanks (i + 1) rs).get ⟨k, h'⟩).rank = i + (k + 1) + 1
    rw [ih]
    omega

/-- `assignRanks` only changes the `rank` field, so the `elo` column is
untouched. -/
theorem assignRanks_map_elo : ∀ (l : List LeaderRow) (i : Nat),
    (assignRanks i l).map (fun r => r.elo) = l.map (fun r => r.elo)
  | [], _ => rfl
  | r :: rs, i => by simp [assignRanks, assignRanks_map_elo rs (i + 1)]

/-- Every row of `assignRanks i l` agrees with a row of `l` on every field
except `rank`. -/
theorem assignRanks_mem : ∀ (l : List LeaderRow) (i : Nat) (r : LeaderRow),
    r ∈ assignRanks i l → ∃ r0 ∈ l, r.provider = r0.provider ∧ r.elo = r0.elo ∧
      r.samples = r0.samples ∧ r.wins = r0.wins ∧ r.losses = r0.losses ∧
      r.winRate = r0.winRate
  | [], _, _, h => by simp [assignRanks] at h
  | r0 :: rs, i, r, h => by
    rcases (by simpa [assignRanks] using h : r = { r0 with rank := i + 1 } ∨
        r ∈ assignRanks (i + 1) rs) with h1 | h1
    · subst h1
      exact ⟨r0, List.mem_cons_self _ _, rfl, rfl, rfl, rfl, rfl, rfl⟩
    · obtain ⟨r1, hmem, heq⟩ := assignRanks_mem rs (i + 1) r h1
      exact ⟨r1, List.mem_cons_of_mem _ hmem, heq⟩

/-- C8 (amended): the leaderboard built by `leaderboard_page` is sorted by
rating descending, its ranks are assigned positionally — row `k` gets rank
`k + 1`, so rows with equal ratings receive distinct consecutive ranks, not
a shared dense rank — and each row's win rate is
`wins / max(games_played, 1) * 100`, in particular `0` (not NaN) when
`games_played = 0`. -/
theorem leaderboard_sort_rank_winrate (providers : List String)
    (eloOf : String → ℤ) (winsOf lossesOf : String → Nat)
    (lb : List LeaderRow)
    (hlb : lb = sortAndRank (buildRows providers eloOf winsOf lossesOf)) :
    (∀ (k : Nat) (h : k < lb.length), (lb.get ⟨k, h⟩).rank = k + 1) ∧
    List.Sorted (fun x y : ℤ => y ≤ x) (lb.map (fun r => r.elo)) ∧
    (∀ r ∈ lb, r.samples = r.wins + r.losses ∧
      r.winRate = (r.wins : ℚ) / (max (r.wins + r.losses) 1 : ℚ) * 100 ∧
      (r.wins + r.losses = 0 → r.winRate = 0)) := by
  subst hlb
  refine ⟨?_, ?_, ?_⟩
  · intro k h
    simpa using assignRanks_rank_get _ 0 k h
  · unfold sortAndRank
    rw [assignRanks_map_elo]
    exact List.pairwise_map.mpr
      (List.sorted_insertionSort (fun a b : LeaderRow => b.elo ≤ a.elo)
        (buildRows providers eloOf winsOf lossesOf))
  · intro r hr
    obtain ⟨r0, hr0, hprov, helo, hsam, hwin, hlos, hwr⟩ :=
      assignRanks_mem _ 0 r hr
    have hr0' : r0 ∈ buildRows providers eloOf winsOf lossesOf :=
      (List.perm_insertionSort _ _).mem_iff.mp hr0
    simp only [buildRows, List.mem_map] at hr0'
    obtain ⟨p, _, hp⟩ := hr0'
    have hw0 : r0.wins = winsOf p := by rw [← hp]
    have hl0 : r0.losses = lossesOf p := by rw [← hp]
    have hs0 : r0.samples = winsOf p + lossesOf p := by rw [← hp]
    have hwr0 : r0.winRate = winRateOf (winsOf p) (winsOf p + lossesOf p) := by
      rw [← hp]
    rw [hsam, hwin, hlos, hwr, hw0, hl0, hs0, hwr0]
    refine ⟨rfl, ?_, ?_⟩
    · simp only [winRateOf]
      rcases Nat.eq_zero_or_pos (winsOf p + lossesOf p) with h0 | hpos
      · have hw : winsOf p = 0 := by omega
        simp [h0, hw]
      · rw [if_pos hpos]
        have hn : 1 ≤ winsOf p + lossesOf p := hpos
        have h1le : (1 : ℚ) ≤ (winsOf p : ℚ) + (lossesOf p : ℚ) := by
          exact_mod_cast hn
        have hmaxQ : ((winsOf p : ℚ) + (lossesOf p : ℚ)) ⊔ 1 =
            (winsOf p : ℚ) + (lossesOf p : ℚ) := max_eq_left h1le
        rw [hmaxQ]
        push_cast
        ring
    · intro h0
      have hw : winsOf p = 0 := by omega
      simp [winRateOf, h0, hw]

/-- C8 counterexample: with two configured providers and no votes, both
providers carry the identical rating 1000, yet the leaderboard assigns them
the distinct ranks 1 and 2 — equal ratings do not share a dense rank. -/
theorem leaderboard_equal_ratings_distinct_ranks :
    (leaderboardRows ["deepgram", "openai"] []).map (fun r => r.elo) =
      [1000, 1000] ∧
    (leaderboardRows ["deepgram", "openai"] []).map (fun r => r.rank) =
      [1, 2] := by
  have hfloor : ⌊(1000 : ℝ)⌋ = 1000 := by norm_num
  have hpr : pyRound (1000 : ℝ) = 1000 := by
    unfold pyRound
    rw [hfloor]
    norm_num
  have h1 : leaderboardRows ["deepgram", "openai"] [] =
      sortAndRank
        [LeaderRow.mk "deepgram" (pyRound 1000) 0 0 0 (winRateOf 0 0) 0,
         LeaderRow.mk "openai" (pyRound 1000) 0 0 0 (winRateOf 0 0) 0] := rfl
  rw [h1, hpr]
  constructor <;> rfl

/-- C8 witness: one provider with two wins and no losses — its single,
top-sorted row gets the positional rank `0 + 1`. -/
theorem leaderboard_sort_rank_winrate_witness :
    ((sortAndRank (buildRows ["deepgram"] (fun _ => (1032 : ℤ))
        (fun _ => 2) (fun _ => 0))).get ⟨0, by decide⟩).rank = 0 + 1 :=
  (leaderboard_sort_rank_winrate ["deepgram"] (fun _ => (1032 : ℤ))
    (fun _ => 2) (fun _ => 0) _ rfl).1 0 (by decide)

/-- C9: whatever the environment, `get_api_key` succeeds for `murf_zeroshot`
(falling back to the hardcoded development key when `MURF_DEV_API_KEY` is
unset or empty), so `validate_config` always counts at least one configured
provider and always reports the configuration as valid. -/
theorem validate_config_always_valid (env : String → Option String) :
    1 ≤ (validateConfig env).1 ∧ (validateConfig env).2 = true := by
  have hok : (getApiKey env "murf_zeroshot").isOk = true := by
    simp only [getApiKey,
      show lookupStr ttsProviders "murf_zeroshot" = some murfZeroshotConfig from rfl]
    cases h : env murfZeroshotConfig.api_key_env with
    | none => simp [h, Except.isOk, Except.toBool]
    | some k => cases hk : (k == "") <;> simp [h, hk, Except.isOk, Except.toBool]
  have hmem : ("murf_zeroshot", murfZeroshotConfig) ∈ ttsProviders := by
    unfold ttsProviders
    exact List.Mem.tail _ (List.Mem.head _)
  have hpos : 0 < ttsProviders.countP (fun p => (getApiKey env p.1).isOk) :=
    List.countP_pos_iff.mpr ⟨("murf_zeroshot", murfZeroshotConfig), hmem, hok⟩
  exact ⟨hpos, by simp [validateConfig, hpos]⟩

/-- If `create_provider` raises for an id, `create_all_providers` has no
entry for that id. -/
theorem createAllProviders_lookup_none (env : String → Option String)
    (pid : String) (he : ∀ inst, createProvider env pid ≠ Except.ok inst) :
    lookupStr (createAllProviders env) pid = none := by
  have hfind : (createAllProviders env).find? (fun p => p.1 == pid) = none := by
    rw [List.find?_eq_none]
    intro x hx
    simp only [createAllProviders, List.mem_filterMap] at hx
    obtain ⟨q, _, hmatch⟩ := hx
    cases hc : createProvider env q with
    | error e => rw [hc] at hmatch; simp at hmatch
    | ok inst =>
      rw [hc] at hmatch
      simp only [Option.some.injEq] at hmatch
      intro hbeq
      have hq : q = pid := by
        have : x.1 = pid := by simpa using hbeq
        rw [← hmatch] at this
        simpa using this
      rw [hq] at hc
      exact he inst hc
  simp [lookupStr, hfind]

/-- C10: `create_provider` raises `ValueError` for the registry ids
`murf_zeroshot` and `sarvam_bulbul_v3` (its dispatch has no branch for
them), both ids are nevertheless in the registry and in
`get_available_providers`, and consequently `create_all_providers` never
returns an entry for either id. -/
theorem factory_rejects_registry_ids (env : String → Option String) :
    createProvider env "murf_zeroshot" =
      Except.error ("Unknown provider: " ++ "murf_zeroshot") ∧
    createProvider env "sarvam_bulbul_v3" =
      Except.error ("Unknown provider: " ++ "sarvam_bulbul_v3") ∧
    "murf_zeroshot" ∈ getAvailableProviders ∧
    "sarvam_bulbul_v3" ∈ getAvailableProviders ∧
    lookupStr (createAllProviders env) "murf_zeroshot" = none ∧
    lookupStr (createAllProviders env) "sarvam_bulbul_v3" = none := by
  have h1 : createProvider env "murf_zeroshot" =
      Except.error ("Unknown provider: " ++ "murf_zeroshot") := rfl
  have h2 : createProvider env "sarvam_bulbul_v3" =
      Except.error ("Unknown provider: " ++ "sarvam_bulbul_v3") := rfl
  refine ⟨h1, h2, by decide, by decide, ?_, ?_⟩
  · exact createAllProviders_lookup_none env _ (fun inst h => by
      rw [h1] at h
      exact Except.noConfusion h)
  · exact createAllProviders_lookup_none env _ (fun inst h => by
      rw [h2] at h
      exact Except.noConfusion h)

/-- C1 witness: a concrete instance of the zero-sum identity. -/
theorem elo_update_zero_sum_witness :
    (eloUpdatePair 1200 1000).1 + (eloUpdatePair 1200 1000).2 = 1200 + 1000 :=
  elo_update_zero_sum 1200 1000

/-- C9 witness: with no API-key environment variable set at all,
`validate_config` still reports at least one configured provider and
`valid = true`. -/
theorem validate_config_always_valid_witness :
    1 ≤ (validateConfig (fun _ => none)).1 ∧
      (validateConfig (fun _ => none)).2 = true :=
  validate_config_always_valid (fun _ => none)

/-- C10 witness: with no API-key environment variable set, the factory
rejects `murf_zeroshot` although the registry lists it, and
`create_all_providers` has no entry for it. -/
theorem factory_rejects_registry_ids_witness :
    createProvider (fun _ => none) "murf_zeroshot" =
      Except.error ("Unknown provider: " ++ "murf_zeroshot") ∧
    "murf_zeroshot" ∈ getAvailableProviders ∧
    lookupStr (createAllProviders (fun _ => none)) "murf_zeroshot" = none :=
  ⟨(factory_rejects_registry_ids (fun _ => none)).1,
   (factory_rejects_registry_ids (fun _ => none)).2.2.1,
   (factory_rejects_registry_ids (fun _ => none)).2.2.2.2.1⟩
